import Mathlib

/-!
Shallow embedding of two GPAC filters and the pieces of the filter/pin
runtime contract they exercise:

* `src/src/filters/dmx_mpegps.c` — the MPEG Program Stream demuxer
  (`m2psdmx_setup`, `m2psdmx_configure_pid`, `m2psdmx_process_event`,
  `m2psdmx_process`);
* `src/src/filters/ff_enc.c` — the ffmpeg encoder filter
  (`ffenc_process`, `ffenc_process_video`, `ffenc_process_audio`).

External collaborators (the mpeg2ps library, the libavcodec engine and the
session-side pin queries) are modelled by an environment record passed to
each call; every externally visible action performed by a call (library
calls, packets sent, pins created, EOS marks, packet drops) is recorded in
an effect trace, in program order.  Machine integers are modelled as `Nat`
or `Int`; the two places where C wrap-around is observable (u64 timestamp
subtraction and the s64→s32→u32 cast chain of the audio-skip property)
use explicit `% 2^64` / `% 2^32` arithmetic.  Buffer byte counts are
unbounded naturals, faithful as long as they stay below 2^32, which the
configuration code guarantees.
-/

/-- The GPAC error codes that appear in the two filters. -/
inductive GF_Err where
  | ok
  | eos
  | notSupported
  | serviceError
  | nonCompliantBitstream
  | urlError
  | requiresNewInstance
  | outOfMem
deriving DecidableEq, Repr

/-- Stream types used by the demuxer's output pins. -/
inductive StreamType where
  | visual
  | audio
deriving DecidableEq, Repr

/-- Numeric value of the GF_STREAM_VISUAL constant. -/
def GF_STREAM_VISUAL_c : Nat := 4
/-- Numeric value of the GF_STREAM_AUDIO constant. -/
def GF_STREAM_AUDIO_c : Nat := 5
/-- Numeric value of GPAC_OTI_VIDEO_MPEG1. -/
def GPAC_OTI_VIDEO_MPEG1 : Nat := 0x6A
/-- Numeric value of GPAC_OTI_VIDEO_MPEG2_MAIN. -/
def GPAC_OTI_VIDEO_MPEG2_MAIN : Nat := 0x61
/-- Numeric value of GPAC_OTI_AUDIO_MPEG1. -/
def GPAC_OTI_AUDIO_MPEG1 : Nat := 0x6B
/-- Numeric value of GPAC_OTI_AUDIO_AC3. -/
def GPAC_OTI_AUDIO_AC3 : Nat := 0xA5
/-- The four-character code GF_4CC of LPCM. -/
def FOURCC_LPCM : Nat := 0x4C50434D

/-- Property keys set by the demuxer on its output pins. -/
inductive PropKey where
  | streamType
  | oti
  | timescale
  | pidId
  | clockId
  | fps
  | width
  | height
  | sar
  | duration
  | sampleRate
  | numChannels
  | bitrate
deriving DecidableEq, Repr

/-- Property values: the demuxer only attaches unsigned ints and fractions. -/
inductive PropVal where
  | uint (v : Nat)
  | frac (num den : Nat)
deriving DecidableEq, Repr

/-- A pin's property map, newest binding first (`gf_filter_pid_set_property`). -/
def setProp (ps : List (PropKey × PropVal)) (k : PropKey) (v : PropVal) :
    List (PropKey × PropVal) :=
  (k, v) :: ps.filter (fun kv => kv.1 != k)

/-- Property lookup on a pin (`gf_filter_pid_get_property`). -/
def getProp (ps : List (PropKey × PropVal)) (k : PropKey) : Option PropVal :=
  (ps.find? (fun kv => kv.1 == k)).map (fun kv => kv.2)

/-- u64 subtraction `a - b` with wrap-around, for timestamps. -/
def u64sub (a b : Nat) : Nat := (a + (2 ^ 64 - b % 2 ^ 64)) % 2 ^ 64

/-- The s64→s32 cast followed by storage into a u32 property field keeps the
low 32 bits of the two's-complement representation. -/
def u32cast (x : Int) : Nat := (x % (2 ^ 32 : Int)).toNat

/-! ## MPEG-PS demuxer: data model -/

/-- Video elementary-stream description exposed by the mpeg2ps library:
the results of `mpeg2ps_get_video_stream_type/framerate/width/height/
aspect_ratio` for one stream.  `fps1000` is the value `(u32)(fps*1000+0.5)`
that `get_video_timing` computes from the library's double; `none` models
a zero framerate (the `if (fps)` guard). -/
inductive MpegVideoType where
  | mpeg1
  | mpeg2
  | other
deriving DecidableEq, Repr

structure VStreamInfo where
  vtype : MpegVideoType
  fps1000 : Option Nat
  width : Nat
  height : Nat
  par : Nat
deriving DecidableEq, Repr

/-- Audio elementary-stream description exposed by the mpeg2ps library. -/
inductive MpegAudioType where
  | mpegAudio
  | ac3
  | lpcm
  | unknown
deriving DecidableEq, Repr

structure AStreamInfo where
  atype : MpegAudioType
  sampleFreq : Nat
  channels : Nat
  bitrate : Nat
deriving DecidableEq, Repr

/-- What an open `mpeg2ps_t` handle reports about the source. -/
structure PSInfo where
  maxTimeMsec : Nat
  firstCts : Nat
  vstreams : List VStreamInfo
  astreams : List AStreamInfo
deriving DecidableEq, Repr

/-- One entry of the demuxer's `ctx->streams` list (struct M2PSStream).
`props` models the property map of the owned output pin `opid`. -/
structure M2PSStream where
  opid : Nat
  stream_type : StreamType
  stream_num : Nat
  in_use : Bool
  props : List (PropKey × PropVal)
deriving DecidableEq, Repr

/-- The demuxer's private state block (struct GF_M2PSDmxCtx); fields of the
source not exercised by the excerpt (`reframe`, `index_dur`, indexes,
`need_reassign`, `header_parsed`, `sig`, `timescale`, `initial_play_done`,
`duration`) are omitted.  `next_pid` models the session's supply of fresh
pin identifiers for `gf_filter_pid_new`. -/
structure GF_M2PSDmxCtx where
  ipid : Option Nat
  src_url : Option String
  ps : Option PSInfo
  start_range : Rat
  first_dts : Nat
  is_playing : Bool
  in_seek : Bool
  streams : List M2PSStream
  next_pid : Nat
deriving DecidableEq, Repr

/-- Externally visible actions of a demuxer call, in program order. -/
structure DmxOutPck where
  payload : List Nat
  dts : Option Nat
  cts : Nat
  sap1 : Bool
deriving DecidableEq, Repr

inductive DmxEff where
  | psOpen (url : String)
  | psClose
  | setupFailure (e : GF_Err)
  | newPin (opid : Nat)
  | removePin (opid : Nat)
  | setFraming
  | seekVideo (snum : Nat) (toMs : Nat)
  | seekAudio (snum : Nat) (toMs : Nat)
  | getVideoFrame (opid snum : Nat)
  | getAudioFrame (opid snum : Nat)
  | sendPck (opid : Nat) (p : DmxOutPck)
  | setEos (opid : Nat)
  | dropInput
deriving DecidableEq, Repr

/-- Environment of one `m2psdmx_process` call: the input-pin queue head, the
outcome `mpeg2ps_init` would have on the recorded url, the `gf_file_exists`
answer, the per-pin would-block state, and the frame each elementary stream
would deliver on this round (`none` = `mpeg2ps_get_*_frame` returns 0). -/
structure VFrame where
  buf : List Nat
  ftype : Nat
  dts : Nat
  cts : Nat

structure AFrame where
  buf : List Nat
  cts : Nat

structure DmxInPck where
  fstart : Bool
  fend : Bool
deriving DecidableEq, Repr

structure DmxEnv where
  input_pck : Option DmxInPck
  open_result : Option PSInfo
  file_exists : Bool
  would_block : Nat → Bool
  vframe : Nat → Option VFrame
  aframe : Nat → Option AFrame

/-! ## MPEG-PS demuxer: setup (pin pooling and property declaration) -/

/-- `get_video_timing`: drop-frame-aware timescale/dts_inc from fps*1000. -/
def get_video_timing (fps1000 : Nat) : Nat × Nat :=
  if fps1000 = 29970 then (30000, 1001)
  else if fps1000 = 23976 then (24000, 1001)
  else if fps1000 = 59940 then (60000, 1001)
  else (fps1000, 1000)

/-- Index of the first pooled stream of type `ty` not currently in use —
the reuse search loop of `m2psdmx_setup`. -/
def findUnused (ty : StreamType) : List M2PSStream → Option Nat
  | [] => none
  | st :: rest =>
    if st.stream_type = ty ∧ st.in_use = false then some 0
    else (findUnused ty rest).map (fun n => n + 1)

/-- In-place update of the j-th list entry. -/
def listModify (f : α → α) : Nat → List α → List α
  | _, [] => []
  | 0, a :: l => f a :: l
  | n + 1, a :: l => a :: listModify f n l

/-- The property-declaration sequence `m2psdmx_setup` runs for video stream
`i`, applied to the pin's current property map.  Mirrors source lines
136–164; note that line 157 sets GF_PROP_PID_WIDTH a second time with the
stream's height and that GF_PROP_PID_HEIGHT is never set. -/
def applyVProps (ps0 : List (PropKey × PropVal)) (vi : VStreamInfo)
    (i syncId : Nat) (dur : Nat × Nat) : List (PropKey × PropVal) :=
  let p := setProp ps0 .streamType (.uint GF_STREAM_VISUAL_c)
  let p := match vi.vtype with
    | .mpeg1 => setProp p .oti (.uint GPAC_OTI_VIDEO_MPEG1)
    | .mpeg2 => setProp p .oti (.uint GPAC_OTI_VIDEO_MPEG2_MAIN)
    | .other => p
  let p := setProp p .timescale (.uint 90000)
  let p := setProp p .pidId (.uint (1 + i))
  let p := setProp p .clockId (.uint syncId)
  let p := match vi.fps1000 with
    | some f => setProp p .fps (.frac (get_video_timing f).1 (get_video_timing f).2)
    | none => p
  let p := setProp p .width (.uint vi.width)
  let p := setProp p .width (.uint vi.height)
  let p := if vi.par ≠ 0 then setProp p .sar (.frac (vi.par / 65536) (vi.par % 65536)) else p
  setProp p .duration (.frac dur.1 dur.2)

/-- The property-declaration sequence for audio stream `i`
(source lines 192–213). -/
def applyAProps (ps0 : List (PropKey × PropVal)) (ai : AStreamInfo)
    (i syncId : Nat) (dur : Nat × Nat) : List (PropKey × PropVal) :=
  let p := setProp ps0 .streamType (.uint GF_STREAM_AUDIO_c)
  let p := match ai.atype with
    | .mpegAudio => setProp p .oti (.uint GPAC_OTI_AUDIO_MPEG1)
    | .ac3 => setProp p .oti (.uint GPAC_OTI_AUDIO_AC3)
    | .lpcm => setProp p .oti (.uint FOURCC_LPCM)
    | .unknown => p
  let p := setProp p .sampleRate (.uint ai.sampleFreq)
  let p := setProp p .numChannels (.uint ai.channels)
  let p := setProp p .bitrate (.uint ai.bitrate)
  let p := setProp p .timescale (.uint 90000)
  let p := setProp p .pidId (.uint (100 + i))
  let p := setProp p .clockId (.uint syncId)
  setProp p .duration (.frac dur.1 dur.2)

/-- Accumulator threaded through the two setup loops. -/
structure SetupAcc where
  streams : List M2PSStream
  next_pid : Nat
  sync_id : Nat
  effs : List DmxEff
deriving Repr

/-- One iteration of the video loop of `m2psdmx_setup`: reuse the first
unused visual pin, otherwise allocate a fresh pin. -/
def setupVideoStep (dur : Nat × Nat) (i : Nat) (vi : VStreamInfo)
    (acc : SetupAcc) : SetupAcc :=
  let syncId := if acc.sync_id = 0 then 1 + i else acc.sync_id
  match findUnused .visual acc.streams with
  | some j =>
    { acc with
      sync_id := syncId,
      streams := listModify
        (fun st => { st with in_use := true, stream_num := i,
                             props := applyVProps st.props vi i syncId dur }) j acc.streams }
  | none =>
    { acc with
      sync_id := syncId,
      streams := acc.streams ++
        [{ opid := acc.next_pid, stream_type := .visual, stream_num := i,
           in_use := true, props := applyVProps [] vi i syncId dur }],
      next_pid := acc.next_pid + 1,
      effs := acc.effs ++ [.newPin acc.next_pid] }

/-- One iteration of the audio loop; streams whose type the library reports
as unknown are skipped before the pin search. -/
def setupAudioStep (dur : Nat × Nat) (i : Nat) (ai : AStreamInfo)
    (acc : SetupAcc) : SetupAcc :=
  if ai.atype = .unknown then acc
  else
    let syncId := if acc.sync_id = 0 then 100 + i else acc.sync_id
    match findUnused .audio acc.streams with
    | some j =>
      { acc with
        sync_id := syncId,
        streams := listModify
          (fun st => { st with in_use := true, stream_num := i,
                               props := applyAProps st.props ai i syncId dur }) j acc.streams }
    | none =>
      { acc with
        sync_id := syncId,
        streams := acc.streams ++
          [{ opid := acc.next_pid, stream_type := .audio, stream_num := i,
             in_use := true, props := applyAProps [] ai i syncId dur }],
        next_pid := acc.next_pid + 1,
        effs := acc.effs ++ [.newPin acc.next_pid] }

def setupVideoLoop (dur : Nat × Nat) : Nat → List VStreamInfo → SetupAcc → SetupAcc
  | _, [], acc => acc
  | i, vi :: rest, acc => setupVideoLoop dur (i + 1) rest (setupVideoStep dur i vi acc)

def setupAudioLoop (dur : Nat × Nat) : Nat → List AStreamInfo → SetupAcc → SetupAcc
  | _, [], acc => acc
  | i, ai :: rest, acc => setupAudioLoop dur (i + 1) rest (setupAudioStep dur i ai acc)

/-- `m2psdmx_setup`: declare (or re-declare) one output pin per elementary
stream of the newly opened source, pooling existing unused pins. -/
def m2psdmx_setup (info : PSInfo) (streams0 : List M2PSStream)
    (next_pid0 : Nat) : SetupAcc :=
  let dur := (info.maxTimeMsec, 1000)
  let acc := setupVideoLoop dur 0 info.vstreams
    { streams := streams0, next_pid := next_pid0, sync_id := 0, effs := [] }
  setupAudioLoop dur 0 info.astreams acc

/-! ## MPEG-PS demuxer: configure_pid, process_event, process -/

/-- Environment of a `m2psdmx_configure_pid` call: the
`gf_filter_pid_check_caps` verdict and the FILEPATH property of the
connecting pin. -/
structure DmxConfEnv where
  caps_ok : Bool
  filepath : Option String

/-- `m2psdmx_configure_pid` (source lines 223–261). -/
def m2psdmx_configure_pid (env : DmxConfEnv) (ctx : GF_M2PSDmxCtx)
    (pid : Nat) (is_remove : Bool) : GF_Err × GF_M2PSDmxCtx × List DmxEff :=
  if is_remove then
    (.ok, { ctx with ipid := none, streams := [] },
     ctx.streams.reverse.map (fun st => .removePin st.opid))
  else if env.caps_ok = false then (.notSupported, ctx, [])
  else
    let ctx := { ctx with ipid := some pid }
    match env.filepath with
    | none => (.notSupported, ctx, [.setFraming])
    | some path =>
      if ctx.src_url = some path then (.ok, ctx, [.setFraming])
      else
        let closeStep : GF_M2PSDmxCtx × List DmxEff :=
          match ctx.ps with
          | some _ =>
            ({ ctx with ps := none,
                        streams := ctx.streams.map (fun st => { st with in_use := false }) },
             [DmxEff.setFraming, .psClose])
          | none => ({ ctx with ps := none }, [DmxEff.setFraming])
        (.ok, { closeStep.1 with src_url := some path }, closeStep.2)

/-- Events the demuxer intercepts. -/
inductive DmxEvent where
  | play (start_range : Rat)
  | stop
  | setSpeed
  | other
deriving DecidableEq, Repr

/-- `m2psdmx_process_event` (source lines 263–292): returns the cancel flag
and the updated state.  `m2psdmx_check_dur` has an empty body in the source
and is elided. -/
def m2psdmx_process_event (ctx : GF_M2PSDmxCtx) (evt : DmxEvent) :
    Bool × GF_M2PSDmxCtx :=
  match evt with
  | .play r =>
    if ctx.is_playing = true ∧ ctx.start_range = r then (true, ctx)
    else (true, { ctx with start_range := r, is_playing := true, in_seek := true })
  | .stop => (false, { ctx with is_playing := false })
  | .setSpeed => (true, ctx)
  | .other => (false, ctx)

/-- `u64 seek_to = 1000*ctx->start_range` (double→u64 truncation; play
ranges are non-negative). -/
def seekMs (r : Rat) : Nat := (⌊(1000 : Rat) * r⌋).toNat

/-- The packet a video frame becomes (source lines 361–370): timestamps
rebased on `first_dts`, a trailing 4-byte start code trimmed, SAP1 iff the
library reports frame type 1 (intra). -/
def mkVideoOut (fd : Nat) (f : VFrame) : DmxOutPck :=
  let dts := u64sub f.dts fd
  let cts := u64sub f.cts fd
  let len := f.buf.length
  let len2 :=
    if 4 ≤ len ∧ f.buf.getD (len - 4) 1 = 0 ∧ f.buf.getD (len - 3) 1 = 0 ∧
       f.buf.getD (len - 2) 0 = 1 then len - 4 else len
  { payload := f.buf.take len2, dts := some dts, cts := cts, sap1 := f.ftype == 1 }

/-- The packet an audio frame becomes (source lines 374–385): CTS rebased,
no DTS, always SAP1. -/
def mkAudioOut (fd : Nat) (f : AFrame) : DmxOutPck :=
  { payload := f.buf, dts := none, cts := u64sub f.cts fd, sap1 := true }

/-- One iteration of the per-stream loop of `m2psdmx_process` (lines
340–388); the accumulator is `(nb_done, effect trace)`. -/
def streamStep (env : DmxEnv) (fd : Nat) (acc : Nat × List DmxEff)
    (st : M2PSStream) : Nat × List DmxEff :=
  if st.in_use = false then (acc.1 + 1, acc.2)
  else if env.would_block st.opid then acc
  else
    match st.stream_type with
    | .visual =>
      match env.vframe st.stream_num with
      | none => (acc.1 + 1, acc.2 ++ [.getVideoFrame st.opid st.stream_num])
      | some f =>
        (acc.1, acc.2 ++ [.getVideoFrame st.opid st.stream_num,
                          .sendPck st.opid (mkVideoOut fd f)])
    | .audio =>
      match env.aframe st.stream_num with
      | none => (acc.1 + 1, acc.2 ++ [.getAudioFrame st.opid st.stream_num])
      | some f =>
        (acc.1, acc.2 ++ [.getAudioFrame st.opid st.stream_num,
                          .sendPck st.opid (mkAudioOut fd f)])

def streamLoop (env : DmxEnv) (fd : Nat) :
    List M2PSStream → Nat × List DmxEff → Nat × List DmxEff
  | [], acc => acc
  | st :: rest, acc => streamLoop env fd rest (streamStep env fd acc st)

/-- The seek pass of `m2psdmx_process` (source lines 325–337): one seek per
in-use stream, at `1000*start_range` ms. -/
def seekEffs (ctx : GF_M2PSDmxCtx) : List DmxEff :=
  (ctx.streams.filter (fun st => st.in_use)).map (fun st =>
    match st.stream_type with
    | .visual => DmxEff.seekVideo st.stream_num (seekMs ctx.start_range)
    | .audio => DmxEff.seekAudio st.stream_num (seekMs ctx.start_range))

/-- The tail of `m2psdmx_process` once the source is known to be open
(source lines 319–398): play gate, deferred seek, per-stream pull loop and
the all-done EOS epilogue. -/
def dmxProcessPlay (env : DmxEnv) (ctx : GF_M2PSDmxCtx) (effs0 : List DmxEff) :
    GF_Err × GF_M2PSDmxCtx × List DmxEff :=
  if ctx.is_playing = false then (.ok, ctx, effs0)
  else
    let seekStep :=
      if ctx.in_seek then ({ ctx with in_seek := false }, effs0 ++ seekEffs ctx)
      else (ctx, effs0)
    let ctx1 := seekStep.1
    let r := streamLoop env ctx1.first_dts ctx1.streams (0, seekStep.2)
    if r.1 = ctx1.streams.length then
      (.eos, ctx1, r.2 ++ ctx1.streams.map (fun st => DmxEff.setEos st.opid) ++ [.dropInput])
    else (.ok, ctx1, r.2)

/-- `m2psdmx_process` (source lines 294–399).  The source `assert(end)` on
the input packet's framing is not modelled. -/
def m2psdmx_process (env : DmxEnv) (ctx : GF_M2PSDmxCtx) :
    GF_Err × GF_M2PSDmxCtx × List DmxEff :=
  match env.input_pck with
  | none => (.ok, ctx, [])
  | some _ =>
    match ctx.ps with
    | none =>
      match env.open_result with
      | none =>
        (.notSupported, ctx,
         [.psOpen (ctx.src_url.getD ""),
          .setupFailure (if env.file_exists then .nonCompliantBitstream else .urlError)])
      | some info =>
        let acc := m2psdmx_setup info ctx.streams ctx.next_pid
        let ctx2 := { ctx with ps := some info, first_dts := info.firstCts,
                               streams := acc.streams, next_pid := acc.next_pid }
        dmxProcessPlay env ctx2 ([DmxEff.psOpen (ctx.src_url.getD "")] ++ acc.effs)
    | some _ => dmxProcessPlay env ctx []

/-! ## FFmpeg encoder filter -/

/-- A coded unit returned by the libavcodec engine (the `AVPacket` the
encoder fills: pts/dts in the input timescale, key flag, duration). -/
structure OutCoded where
  size : Nat
  pts : Int
  dts : Int
  key : Bool
  duration : Nat
deriving DecidableEq, Repr

/-- An input packet on the encoder's input pin.  `data = none` models a
packet without mapped data (hardware frame); `hw_fetch` is the combined
outcome of the `gf_filter_pck_get_hw_frame`/`get_plane` sequence, `none`
meaning the planes were fetched. -/
structure EncInPck where
  cts : Nat
  data : Option (List Nat)
  hw_fetch : Option GF_Err
  interlaced : Nat
deriving DecidableEq, Repr

/-- Environment of one `ffenc_process` call: would-block state of the
output pin, input-pin queue head, input EOS state, and the results the
codec engine returns for `avcodec_fill_audio_frame`, for an encode call
with a frame, and for an encode call with NULL (flush). -/
structure EncEnv where
  would_block : Bool
  input_pck : Option EncInPck
  is_eos : Bool
  fill_res : Int
  encode_res : Int
  encode_out : Option OutCoded
  flush_res : Int
  flush_out : Option OutCoded

/-- A packet the encoder sends downstream. -/
structure EncOutPck where
  size : Nat
  cts : Int
  dts : Int
  sap1 : Bool
  duration : Nat
deriving DecidableEq, Repr

/-- Externally visible actions of one encoder `process` call. -/
inductive EncEff where
  | dropInput
  | submitFrame (pts : Int)
  | submitFlush
  | sendPck (p : EncOutPck)
  | setEos
  | setAudioSkip (v : Nat)
  | logError
deriving DecidableEq, Repr

/-- The encoder's private state block (struct GF_FFEncodeCtx), restricted to
the fields `process` reads or writes.  `ctype` selects which process
function `configure` installed; `frame_pts` is the persistent
`ctx->frame->pts` field; `audio_buffer` is the pending-bytes accumulation
buffer (its length is `bytes_in_audio_buffer`). -/
structure GF_FFEncodeCtx where
  ctype : StreamType
  flush_done : Bool
  timescale : Nat
  sample_rate : Nat
  bytes_per_sample : Nat
  frame_size : Nat
  audio_buffer : List Nat
  first_byte_cts : Nat
  frame_pts : Int
  init_cts_setup : Bool
  ts_shift : Int
deriving DecidableEq, Repr

/-- The audio packet-emission epilogue (source lines 324–353): one-shot
timestamp-shift capture, audio-skip publication, shifted cts/dts.  The C
division on the skip is s64 truncating division; the published property
value goes through an s32 then u32 cast.  The s32 cast the source applies
when storing `ts_shift` itself is not modelled: it is the identity for any
shift below 2^31 ticks, which every realistic encoder delay is. -/
def ffenc_audio_emit (ctx : GF_FFEncodeCtx) (out : OutCoded)
    (effs : List EncEff) : GF_Err × GF_FFEncodeCtx × List EncEff :=
  let step :=
    if ctx.init_cts_setup then
      let c := { ctx with init_cts_setup := false }
      let c := if c.frame_pts ≠ out.pts then { c with ts_shift := c.frame_pts - out.pts } else c
      if c.ts_shift ≠ 0 then
        (c, effs ++ [EncEff.setAudioSkip
          (u32cast (Int.tdiv (c.ts_shift * (c.sample_rate : Int)) (c.timescale : Int)))])
      else (c, effs)
    else (ctx, effs)
  let c := step.1
  (.ok, c, step.2 ++ [.sendPck
    { size := out.size, cts := out.pts + c.ts_shift, dts := out.dts + c.ts_shift,
      sap1 := out.key, duration := out.duration }])

/-- `ffenc_process_video` (source lines 107–216). -/
def ffenc_process_video (env : EncEnv) (ctx : GF_FFEncodeCtx) :
    GF_Err × GF_FFEncodeCtx × List EncEff :=
  match env.input_pck with
  | none =>
    -- source line 119: the no-input early return is gated on flush_done
    if ctx.flush_done = true ∧ env.is_eos = false then (.ok, ctx, [])
    else
      match env.flush_out with
      | none => (.eos, { ctx with flush_done := true }, [.submitFlush, .setEos])
      | some out =>
        if env.flush_res < 0 then (.serviceError, ctx, [.submitFlush, .logError])
        else (.ok, ctx, [.submitFlush, .sendPck
          { size := out.size, cts := out.pts, dts := out.dts,
            sap1 := out.key, duration := out.duration }])
  | some pck =>
    match pck.data, pck.hw_fetch with
    | none, some e => (e, ctx, [.logError, .dropInput])
    | _, _ =>
      let ctx1 := { ctx with frame_pts := (pck.cts : Int) }
      let effs : List EncEff := [.submitFrame ctx1.frame_pts, .dropInput]
      if env.encode_res < 0 then (.serviceError, ctx1, effs ++ [.logError])
      else
        match env.encode_out with
        | none => (.ok, ctx1, effs)
        | some out => (.ok, ctx1, effs ++ [.sendPck
          { size := out.size, cts := out.pts, dts := out.dts,
            sap1 := out.key, duration := out.duration }])

/-- `ffenc_process_audio` (source lines 219–354). -/
def ffenc_process_audio (env : EncEnv) (ctx : GF_FFEncodeCtx) :
    GF_Err × GF_FFEncodeCtx × List EncEff :=
  match env.input_pck with
  | none =>
    -- source line 231: same flush_done-gated early return as the video path
    if ctx.flush_done = true ∧ env.is_eos = false then (.ok, ctx, [])
    else
      match env.flush_out with
      | none => (.eos, { ctx with flush_done := true }, [.submitFlush, .setEos])
      | some out =>
        if env.flush_res < 0 then (.serviceError, ctx, [.submitFlush, .logError])
        else ffenc_audio_emit ctx out [.submitFlush]
  | some pck =>
    match pck.data with
    | none => (.ok, ctx, [.logError, .dropInput])
    | some data =>
      let size := data.length
      let ctx0 := if ctx.audio_buffer.length = 0 then { ctx with first_byte_cts := pck.cts } else ctx
      if ctx0.frame_size ≠ 0 ∧
         size + ctx0.audio_buffer.length < ctx0.bytes_per_sample * ctx0.frame_size then
        (.ok, { ctx0 with audio_buffer := ctx0.audio_buffer ++ data }, [.dropInput])
      else
        let nb_copy := if ctx0.frame_size ≠ 0 then
          ctx0.bytes_per_sample * ctx0.frame_size - ctx0.audio_buffer.length else 0
        let rest := if ctx0.frame_size ≠ 0 then data.drop nb_copy else []
        let size2 := if ctx0.frame_size ≠ 0 then size - nb_copy else 0
        if env.fill_res < 0 then
          let ctxe := { ctx0 with audio_buffer := rest }
          let ctxe := if size2 ≠ 0 then
              { ctxe with first_byte_cts :=
                  pck.cts + nb_copy / ctxe.bytes_per_sample * ctxe.timescale / ctxe.sample_rate }
            else ctxe
          (.serviceError, ctxe, [.logError, .dropInput])
        else
          let ctx1 := { ctx0 with frame_pts := (ctx0.first_byte_cts : Int) }
          let ctx2 := { ctx1 with audio_buffer := rest }
          let ctx2 := if size2 ≠ 0 then
              { ctx2 with first_byte_cts :=
                  pck.cts + nb_copy / ctx2.bytes_per_sample * ctx2.timescale / ctx2.sample_rate }
            else ctx2
          let effs : List EncEff := [.submitFrame ctx1.frame_pts, .dropInput]
          if env.encode_res < 0 then (.serviceError, ctx2, effs ++ [.logError])
          else
            match env.encode_out with
            | none => (.ok, ctx2, effs)
            | some out => ffenc_audio_emit ctx2 out effs

/-- `ffenc_process` (source lines 356–362): backpressure gate, then the
configured per-type process function. -/
def ffenc_process (env : EncEnv) (ctx : GF_FFEncodeCtx) :
    GF_Err × GF_FFEncodeCtx × List EncEff :=
  if env.would_block then (.ok, ctx, [])
  else
    match ctx.ctype with
    | .visual => ffenc_process_video env ctx
    | .audio => ffenc_process_audio env ctx

/-! ## Effect classification helpers -/

/-- The output pin a loop-iteration effect was produced for, if any. -/
def dmxEffPin : DmxEff → Option Nat
  | .getVideoFrame o _ => some o
  | .getAudioFrame o _ => some o
  | .sendPck o _ => some o
  | _ => none

/-- Seek operations on the external source. -/
def isSeekEff : DmxEff → Bool
  | .seekVideo _ _ => true
  | .seekAudio _ _ => true
  | _ => false

/-! ## Concrete states used to instantiate the claims -/

/-- A demuxer state with one in-use video output pin and an open source. -/
def wInfo : PSInfo :=
  { maxTimeMsec := 10000, firstCts := 0,
    vstreams := [{ vtype := .mpeg2, fps1000 := some 25000, width := 640, height := 480, par := 0 }],
    astreams := [] }

def wStream : M2PSStream :=
  { opid := 1, stream_type := .visual, stream_num := 0, in_use := true, props := [] }

def wDmxCtx : GF_M2PSDmxCtx :=
  { ipid := some 0, src_url := some "a.mpg", ps := some wInfo, start_range := 0,
    first_dts := 0, is_playing := true, in_seek := false, streams := [wStream], next_pid := 2 }

/-- A demuxer-process environment whose every output pin would block. -/
def wBlockedDEnv : DmxEnv :=
  { input_pck := some { fstart := true, fend := true }, open_result := none,
    file_exists := true, would_block := fun _ => true,
    vframe := fun _ => some { buf := [0, 0, 1, 7, 9], ftype := 1, dts := 3003, cts := 3003 },
    aframe := fun _ => none }

/-- An encoder state as `ffenc_config_input` leaves it for a video pin. -/
def wEncCtx : GF_FFEncodeCtx :=
  { ctype := .visual, flush_done := false, timescale := 90000, sample_rate := 0,
    bytes_per_sample := 0, frame_size := 0, audio_buffer := [], first_byte_cts := 0,
    frame_pts := 0, init_cts_setup := false, ts_shift := 0 }

/-- An encoder environment with a blocked output pin. -/
def wBlockedEEnv : EncEnv :=
  { would_block := true,
    input_pck := some { cts := 0, data := some [1, 2, 3], hw_fetch := none, interlaced := 0 },
    is_eos := false, fill_res := 0, encode_res := 0,
    encode_out := some { size := 3, pts := 0, dts := 0, key := true, duration := 1 },
    flush_res := 0, flush_out := none }

/-- C2 failing input: video encoder, nothing pending on the input pin, input
pin not at EOS, output pin not blocked, codec has no pending coded units. -/
def c2Ctx : GF_FFEncodeCtx := wEncCtx

def c2Env : EncEnv :=
  { would_block := false, input_pck := none, is_eos := false, fill_res := 0,
    encode_res := 0, encode_out := none, flush_res := 0, flush_out := none }

def c2DmxEnv : DmxEnv :=
  { input_pck := none, open_result := none, file_exists := true,
    would_block := fun _ => false, vframe := fun _ => none, aframe := fun _ => none }

/-- C3 scenario: sample_rate = timescale = 48000, first submitted frame pts
1024, first reported coded-unit pts 960. -/
def c3Ctx : GF_FFEncodeCtx :=
  { ctype := .audio, flush_done := false, timescale := 48000, sample_rate := 48000,
    bytes_per_sample := 4, frame_size := 1, audio_buffer := [], first_byte_cts := 0,
    frame_pts := 0, init_cts_setup := true, ts_shift := 0 }

def c3Env : EncEnv :=
  { would_block := false,
    input_pck := some { cts := 1024, data := some [0, 0, 0, 0], hw_fetch := none, interlaced := 0 },
    is_eos := false, fill_res := 0,
    encode_res := 0, encode_out := some { size := 10, pts := 960, dts := 960, key := true, duration := 1024 },
    flush_res := 0, flush_out := none }

/-- A later-packet state for C3: shift already captured. -/
def c3CtxB : GF_FFEncodeCtx := { c3Ctx with init_cts_setup := false, ts_shift := 64 }

def c3EnvB : EncEnv :=
  { c3Env with
    input_pck := some { cts := 2048, data := some [0, 0, 0, 0], hw_fetch := none, interlaced := 0 },
    encode_out := some { size := 10, pts := 1984, dts := 1984, key := true, duration := 1024 } }

/-- C4 failing input: a pooled video pin left over from a previous source,
carrying a height property (and width 640) visible downstream; the new
source's single video stream is 1280x720. -/
def c4OldProps : List (PropKey × PropVal) :=
  [(.height, .uint 480), (.width, .uint 640), (.timescale, .uint 90000)]

def c4Streams0 : List M2PSStream :=
  [{ opid := 1, stream_type := .visual, stream_num := 0, in_use := false, props := c4OldProps }]

def c4Info : PSInfo :=
  { maxTimeMsec := 10000, firstCts := 0,
    vstreams := [{ vtype := .mpeg2, fps1000 := none, width := 1280, height := 720, par := 0 }],
    astreams := [] }

/-- C5 scenario: source A had declared 2 video + 1 audio pins, all marked
not-in-use when A was closed; source B has 1 video + 1 audio stream. -/
def c5Streams0 : List M2PSStream :=
  [{ opid := 1, stream_type := .visual, stream_num := 0, in_use := false, props := [] },
   { opid := 2, stream_type := .visual, stream_num := 1, in_use := false, props := [] },
   { opid := 3, stream_type := .audio, stream_num := 0, in_use := false, props := [] }]

def c5Info : PSInfo :=
  { maxTimeMsec := 8000, firstCts := 0,
    vstreams := [{ vtype := .mpeg1, fps1000 := some 25000, width := 352, height := 288, par := 0 }],
    astreams := [{ atype := .mpegAudio, sampleFreq := 44100, channels := 2, bitrate := 192 }] }

/-- C8 failing input: recorded source url whose open fails. -/
def c8Ctx : GF_M2PSDmxCtx :=
  { ipid := some 0, src_url := some "a.mpg", ps := none, start_range := 0,
    first_dts := 0, is_playing := false, in_seek := false, streams := [], next_pid := 1 }

def c8Env : DmxEnv :=
  { input_pck := some { fstart := true, fend := true }, open_result := none,
    file_exists := true, would_block := fun _ => false,
    vframe := fun _ => none, aframe := fun _ => none }

/-- C10 scenario: source open, but no PLAY received (or STOP received). -/
def w10Ctx : GF_M2PSDmxCtx := { wDmxCtx with is_playing := false }

/-- C6 scenario: a play-capable open-source state and a frame environment. -/
def c6Env : DmxEnv := c8Env

/-- A previously opened source with 2 video and 1 audio streams (C5/C7). -/
def c5InfoOld : PSInfo :=
  { maxTimeMsec := 9000, firstCts := 0,
    vstreams := [{ vtype := .mpeg2, fps1000 := some 25000, width := 704, height := 576, par := 0 },
                 { vtype := .mpeg2, fps1000 := some 25000, width := 352, height := 288, par := 0 }],
    astreams := [{ atype := .ac3, sampleFreq := 48000, channels := 2, bitrate := 448 }] }

/-- Demuxer state holding the three in-use pins of `c5InfoOld` (C5/C7). -/
def c5CtxOpen : GF_M2PSDmxCtx :=
  { ipid := some 0, src_url := some "a.mpg", ps := some c5InfoOld, start_range := 0,
    first_dts := 0, is_playing := true, in_seek := false,
    streams := [{ opid := 1, stream_type := .visual, stream_num := 0, in_use := true, props := [] },
                { opid := 2, stream_type := .visual, stream_num := 1, in_use := true, props := [] },
                { opid := 3, stream_type := .audio, stream_num := 0, in_use := true, props := [] }],
    next_pid := 4 }

/-- A configure_pid environment carrying a new file path (C5/C7). -/
def cfB : DmxConfEnv := { caps_ok := true, filepath := some "b.mpg" }

/-- A configure_pid environment carrying the already-recorded path (C7). -/
def cfA : DmxConfEnv := { caps_ok := true, filepath := some "a.mpg" }

/-- A setup accumulator over the three pooled pins (C5). -/
def c5Acc : SetupAcc := { streams := c5Streams0, next_pid := 10, sync_id := 0, effs := [] }

/-- C9 video scenario: the encode call fails (negative return). -/
def c9EnvVideoErr : EncEnv :=
  { would_block := false,
    input_pck := some { cts := 3003, data := some [1, 2, 3], hw_fetch := none, interlaced := 0 },
    is_eos := false, fill_res := 0, encode_res := -22,
    encode_out := none, flush_res := 0, flush_out := none }

/-- C9: the following call, whose encode succeeds. -/
def c9EnvVideoOk : EncEnv :=
  { would_block := false,
    input_pck := some { cts := 6006, data := some [4, 5, 6], hw_fetch := none, interlaced := 0 },
    is_eos := false, fill_res := 0, encode_res := 0,
    encode_out := some { size := 2, pts := 3003, dts := 0, key := true, duration := 3003 },
    flush_res := 0, flush_out := none }

/-- C9 audio scenario: the encode call fails. -/
def c9EnvAudioErr : EncEnv := { c3Env with encode_res := -22, encode_out := none }

/-- A setup accumulator whose pins are all in use (C5 allocation case). -/
def c5AccFull : SetupAcc :=
  { streams := c5CtxOpen.streams, next_pid := 4, sync_id := 0, effs := [] }

/-- The single video stream of source B (C5). -/
def c5VideoB : VStreamInfo :=
  { vtype := .mpeg1, fps1000 := some 25000, width := 352, height := 288, par := 0 }

/-- The single audio stream of source B (C5). -/
def c5AudioB : AStreamInfo :=
  { atype := .mpegAudio, sampleFreq := 44100, channels := 2, bitrate := 192 }

/-- C3 drain-phase environment: no input, codec still delivering. -/
def c3EnvFlush : EncEnv :=
  { would_block := false, input_pck := none, is_eos := true, fill_res := 0,
    encode_res := 0, encode_out := none, flush_res := 0,
    flush_out := some { size := 5, pts := 2048, dts := 2048, key := true, duration := 512 } }

/-! ## List lemmas about the per-stream pull loop -/

theorem streamStep_nb_le (env : DmxEnv) (fd : Nat) (acc : Nat × List DmxEff)
    (st : M2PSStream) : (streamStep env fd acc st).1 ≤ acc.1 + 1 := by
  unfold streamStep
  by_cases h1 : st.in_use = false
  · simp [h1]
  · rw [if_neg h1]
    by_cases h2 : env.would_block st.opid
    · rw [if_pos h2]; omega
    · rw [if_neg h2]
      cases st.stream_type <;> dsimp only
      · cases env.vframe st.stream_num <;> simp
      · cases env.aframe st.stream_num <;> simp

theorem streamStep_blocked (env : DmxEnv) (fd : Nat) (acc : Nat × List DmxEff)
    (st : M2PSStream) (huse : st.in_use = true)
    (hblk : env.would_block st.opid = true) :
    streamStep env fd acc st = acc := by
  unfold streamStep
  rw [if_neg (by simp [huse]), if_pos hblk]

theorem streamLoop_append (env : DmxEnv) (fd : Nat) (l1 l2 : List M2PSStream)
    (acc : Nat × List DmxEff) :
    streamLoop env fd (l1 ++ l2) acc = streamLoop env fd l2 (streamLoop env fd l1 acc) := by
  induction l1 generalizing acc with
  | nil => simp [streamLoop]
  | cons st rest ih => simp [streamLoop, ih]

theorem streamLoop_nb_le (env : DmxEnv) (fd : Nat) (l : List M2PSStream)
    (acc : Nat × List DmxEff) : (streamLoop env fd l acc).1 ≤ acc.1 + l.length := by
  induction l generalizing acc with
  | nil => simp [streamLoop]
  | cons st rest ih =>
    calc (streamLoop env fd (st :: rest) acc).1
        = (streamLoop env fd rest (streamStep env fd acc st)).1 := rfl
      _ ≤ (streamStep env fd acc st).1 + rest.length := ih _
      _ ≤ acc.1 + 1 + rest.length := by
          have := streamStep_nb_le env fd acc st; omega
      _ = acc.1 + (st :: rest).length := by
          simp only [List.length_cons]; omega

/-- A blocked in-use stream is never counted done, so `nb_done` stays
strictly below the stream count. -/
theorem streamLoop_nb_lt (env : DmxEnv) (fd : Nat) (l : List M2PSStream)
    (acc : Nat × List DmxEff) (st : M2PSStream) (hst : st ∈ l)
    (huse : st.in_use = true) (hblk : env.would_block st.opid = true) :
    (streamLoop env fd l acc).1 + 1 ≤ acc.1 + l.length := by
  obtain ⟨l1, l2, rfl⟩ := List.append_of_mem hst
  rw [streamLoop_append]
  have h1 : (streamLoop env fd l1 acc).1 ≤ acc.1 + l1.length := streamLoop_nb_le env fd l1 acc
  have h2 : streamLoop env fd (st :: l2) (streamLoop env fd l1 acc)
      = streamLoop env fd l2 (streamLoop env fd l1 acc) := by
    show streamLoop env fd l2 (streamStep env fd _ st) = _
    rw [streamStep_blocked env fd _ st huse hblk]
  rw [h2]
  have h3 := streamLoop_nb_le env fd l2 (streamLoop env fd l1 acc)
  simp only [List.length_append, List.length_cons]
  omega

/-- Every effect the pull loop appends comes from an in-use, unblocked
stream and is tagged with that stream's pin. -/
theorem streamStep_effs (env : DmxEnv) (fd : Nat) (acc : Nat × List DmxEff)
    (st : M2PSStream) :
    ∃ extra, (streamStep env fd acc st).2 = acc.2 ++ extra ∧
      ∀ e ∈ extra, st.in_use = true ∧ env.would_block st.opid = false ∧
        dmxEffPin e = some st.opid := by
  unfold streamStep
  split
  · exact ⟨[], by simp⟩
  · rename_i huse
    split
    · exact ⟨[], by simp⟩
    · rename_i hblk
      have huse' : st.in_use = true := by
        revert huse; cases st.in_use <;> simp
      have hblk' : env.would_block st.opid = false := by
        revert hblk; cases env.would_block st.opid <;> simp
      split <;> split <;>
        refine ⟨_, rfl, ?_⟩ <;> intro e he <;>
        simp only [List.mem_cons, List.mem_singleton, List.not_mem_nil] at he <;>
        refine ⟨huse', hblk', ?_⟩ <;>
        rcases he with rfl | he <;> first
          | rfl
          | (rcases he with rfl | he <;> first | rfl | exact absurd he (by simp))

theorem streamLoop_effs (env : DmxEnv) (fd : Nat) (l : List M2PSStream)
    (acc : Nat × List DmxEff) :
    ∃ extra, (streamLoop env fd l acc).2 = acc.2 ++ extra ∧
      ∀ e ∈ extra, ∃ st ∈ l, st.in_use = true ∧ env.would_block st.opid = false ∧
        dmxEffPin e = some st.opid := by
  induction l generalizing acc with
  | nil => exact ⟨[], by simp [streamLoop]⟩
  | cons st rest ih =>
    obtain ⟨e1, he1, hp1⟩ := streamStep_effs env fd acc st
    obtain ⟨e2, he2, hp2⟩ := ih (streamStep env fd acc st)
    refine ⟨e1 ++ e2, ?_, ?_⟩
    · show (streamLoop env fd rest (streamStep env fd acc st)).2 = _
      rw [he2, he1, List.append_assoc]
    · intro e he
      rcases List.mem_append.1 he with h | h
      · obtain ⟨h1, h2, h3⟩ := hp1 e h
        exact ⟨st, List.mem_cons_self st rest, h1, h2, h3⟩
      · obtain ⟨st', hm, h1, h2, h3⟩ := hp2 e h
        exact ⟨st', List.mem_cons_of_mem st hm, h1, h2, h3⟩

theorem dmxEffPin_not_seek (e : DmxEff) (o : Nat) (h : dmxEffPin e = some o) :
    isSeekEff e = false := by
  cases e <;> simp [dmxEffPin, isSeekEff] at h ⊢

theorem streamLoop_filter_seek (env : DmxEnv) (fd : Nat) (l : List M2PSStream)
    (acc : Nat × List DmxEff) :
    ((streamLoop env fd l acc).2).filter isSeekEff = acc.2.filter isSeekEff := by
  obtain ⟨extra, heq, hall⟩ := streamLoop_effs env fd l acc
  rw [heq, List.filter_append]
  have : extra.filter isSeekEff = [] := by
    rw [List.filter_eq_nil_iff]
    intro e he
    obtain ⟨st, _, _, _, hp⟩ := hall e he
    simp [dmxEffPin_not_seek e st.opid hp]
  rw [this, List.append_nil]

theorem seekEffs_all_seek (ctx : GF_M2PSDmxCtx) :
    ∀ e ∈ seekEffs ctx, isSeekEff e = true := by
  intro e he
  simp only [seekEffs, List.mem_map] at he
  obtain ⟨st, _, rfl⟩ := he
  cases st.stream_type <;> simp [isSeekEff]

theorem seekEffs_length (ctx : GF_M2PSDmxCtx) :
    (seekEffs ctx).length = (ctx.streams.filter (fun st => st.in_use)).length := by
  simp [seekEffs]

/-- Evaluation of `dmxProcessPlay` in the playing state. -/
theorem dmxProcessPlay_eq (env : DmxEnv) (ctx : GF_M2PSDmxCtx)
    (effs0 : List DmxEff) (hpl : ctx.is_playing = true) :
    dmxProcessPlay env ctx effs0 =
      (if (streamLoop env ctx.first_dts ctx.streams
            (0, if ctx.in_seek then effs0 ++ seekEffs ctx else effs0)).1 = ctx.streams.length then
        (.eos, (if ctx.in_seek then { ctx with in_seek := false } else ctx),
         (streamLoop env ctx.first_dts ctx.streams
            (0, if ctx.in_seek then effs0 ++ seekEffs ctx else effs0)).2
           ++ ctx.streams.map (fun st => DmxEff.setEos st.opid) ++ [.dropInput])
      else
        (.ok, (if ctx.in_seek then { ctx with in_seek := false } else ctx),
         (streamLoop env ctx.first_dts ctx.streams
            (0, if ctx.in_seek then effs0 ++ seekEffs ctx else effs0)).2)) := by
  unfold dmxProcessPlay
  rw [if_neg (by simp [hpl])]
  cases h : ctx.in_seek <;> simp [h]

/-- While playing, the state after `dmxProcessPlay` is the input state with
the pending-seek flag consumed. -/
theorem dmxProcessPlay_ctx (env : DmxEnv) (ctx : GF_M2PSDmxCtx)
    (effs0 : List DmxEff) (hpl : ctx.is_playing = true) :
    (dmxProcessPlay env ctx effs0).2.1
      = (if ctx.in_seek then { ctx with in_seek := false } else ctx) := by
  rw [dmxProcessPlay_eq env ctx effs0 hpl]
  split <;> split <;> rfl

/-- The effect trace of `dmxProcessPlay` extends the trace it is given. -/
theorem dmxProcessPlay_prefix (env : DmxEnv) (ctx : GF_M2PSDmxCtx)
    (effs0 : List DmxEff) :
    ∃ rest, (dmxProcessPlay env ctx effs0).2.2 = effs0 ++ rest := by
  by_cases hpl : ctx.is_playing = true
  · rw [dmxProcessPlay_eq env ctx effs0 hpl]
    split
    · obtain ⟨extra, heq, _⟩ :=
        streamLoop_effs env ctx.first_dts ctx.streams (0, effs0 ++ seekEffs ctx)
      split
      · refine ⟨seekEffs ctx ++ extra
          ++ ctx.streams.map (fun st => DmxEff.setEos st.opid) ++ [.dropInput], ?_⟩
        simp only [heq]
        simp [List.append_assoc]
      · refine ⟨seekEffs ctx ++ extra, ?_⟩
        simp only [heq]
        simp [List.append_assoc]
    · obtain ⟨extra, heq, _⟩ :=
        streamLoop_effs env ctx.first_dts ctx.streams (0, effs0)
      split
      · refine ⟨extra ++ ctx.streams.map (fun st => DmxEff.setEos st.opid) ++ [.dropInput], ?_⟩
        simp only [heq]
        simp [List.append_assoc]
      · exact ⟨extra, by simp only [heq]⟩
  · unfold dmxProcessPlay
    rw [if_pos (by revert hpl; cases ctx.is_playing <;> simp)]
    exact ⟨[], by simp⟩

/-- The seek operations of one `dmxProcessPlay` round: exactly the deferred
seek pass when the pending-seek flag is set, none otherwise. -/
theorem dmxProcessPlay_filter_seek (env : DmxEnv) (ctx : GF_M2PSDmxCtx)
    (effs0 : List DmxEff) (hpl : ctx.is_playing = true) :
    ((dmxProcessPlay env ctx effs0).2.2).filter isSeekEff
      = effs0.filter isSeekEff ++ (if ctx.in_seek then seekEffs ctx else []) := by
  rw [dmxProcessPlay_eq env ctx effs0 hpl]
  have heos : (ctx.streams.map (fun st => DmxEff.setEos st.opid)).filter isSeekEff = [] := by
    rw [List.filter_eq_nil_iff]
    intro e he
    obtain ⟨st, _, rfl⟩ := List.mem_map.1 he
    simp [isSeekEff]
  have hseekall : (seekEffs ctx).filter isSeekEff = seekEffs ctx :=
    List.filter_eq_self.2 (seekEffs_all_seek ctx)
  split
  · rename_i hs
    split
    · simp only [List.filter_append, streamLoop_filter_seek]
      simp [List.filter_append, hseekall, heos, isSeekEff, hs]
    · rw [streamLoop_filter_seek]
      simp [List.filter_append, hseekall, hs]
  · rename_i hs
    split
    · simp only [List.filter_append, streamLoop_filter_seek]
      simp [List.filter_append, heos, isSeekEff, hs]
    · rw [streamLoop_filter_seek]
      simp [hs]

/-! ## Encoder lemmas -/

/-- With the capture flag already cleared, the audio emission epilogue just
sends the shifted packet. -/
theorem ffenc_audio_emit_noinit (c : GF_FFEncodeCtx) (out : OutCoded)
    (effs : List EncEff) (h : c.init_cts_setup = false) :
    ffenc_audio_emit c out effs
      = (.ok, c,
         effs ++ [.sendPck { size := out.size, cts := out.pts + c.ts_shift,
                             dts := out.dts + c.ts_shift, sap1 := out.key,
                             duration := out.duration }]) := by
  unfold ffenc_audio_emit
  rw [if_neg (by simp [h])]

theorem ffenc_video_preserves_shift (env : EncEnv) (ctx : GF_FFEncodeCtx)
    (h : ctx.init_cts_setup = false) :
    (ffenc_process_video env ctx).2.1.ts_shift = ctx.ts_shift ∧
    (ffenc_process_video env ctx).2.1.init_cts_setup = false := by
  unfold ffenc_process_video
  repeat' split
  all_goals exact ⟨rfl, h⟩

theorem ffenc_audio_preserves_shift (env : EncEnv) (ctx : GF_FFEncodeCtx)
    (h : ctx.init_cts_setup = false) :
    (ffenc_process_audio env ctx).2.1.ts_shift = ctx.ts_shift ∧
    (ffenc_process_audio env ctx).2.1.init_cts_setup = false := by
  unfold ffenc_process_audio
  repeat' first
    | split
    | dsimp only
  all_goals first
    | exact ⟨rfl, h⟩
    | (constructor <;> simp [ffenc_audio_emit_noinit, h, apply_ite])

/-- Once the one-shot capture flag is cleared, no encoder `process` call
touches `ts_shift` or sets the flag again. -/
theorem ffenc_preserves_shift (env : EncEnv) (ctx : GF_FFEncodeCtx)
    (h : ctx.init_cts_setup = false) :
    (ffenc_process env ctx).2.1.ts_shift = ctx.ts_shift ∧
    (ffenc_process env ctx).2.1.init_cts_setup = false := by
  unfold ffenc_process
  split
  · exact ⟨rfl, h⟩
  · cases hty : ctx.ctype <;> simp only [hty]
    · exact ffenc_video_preserves_shift env ctx h
    · exact ffenc_audio_preserves_shift env ctx h

/-! ## Pin-pooling lemmas -/

theorem findUnused_eq_none_iff (ty : StreamType) (l : List M2PSStream) :
    findUnused ty l = none ↔ ∀ st ∈ l, ¬(st.stream_type = ty ∧ st.in_use = false) := by
  induction l with
  | nil => simp [findUnused]
  | cons st rest ih =>
    unfold findUnused
    by_cases hc : st.stream_type = ty ∧ st.in_use = false
    · simp [hc]
    · rw [if_neg hc]
      constructor
      · intro hn s hs
        rcases List.mem_cons.1 hs with rfl | hs
        · exact hc
        · have hrest : findUnused ty rest = none := by
            cases hfr : findUnused ty rest
            · rfl
            · rw [hfr] at hn; simp at hn
          exact ih.1 hrest s hs
      · intro hall
        have hrest : findUnused ty rest = none :=
          ih.2 (fun s hs => hall s (List.mem_cons_of_mem st hs))
        rw [hrest]
        rfl

theorem listModify_map {α : Type} (f : M2PSStream → M2PSStream) (g : M2PSStream → α)
    (hg : ∀ a, g (f a) = g a) (j : Nat) (l : List M2PSStream) :
    (listModify f j l).map g = l.map g := by
  induction l generalizing j with
  | nil => simp [listModify]
  | cons a rest ih =>
    cases j with
    | zero => simp [listModify, hg]
    | succ n => simp [listModify, ih]

/-- When an unused pin of the right type exists, one video-setup iteration
reuses it: no pin is created, pin identities are untouched. -/
theorem setupVideoStep_reuse (dur : Nat × Nat) (i : Nat) (vi : VStreamInfo)
    (acc : SetupAcc)
    (hex : ∃ st ∈ acc.streams, st.stream_type = .visual ∧ st.in_use = false) :
    (setupVideoStep dur i vi acc).streams.map (fun st => st.opid)
        = acc.streams.map (fun st => st.opid) ∧
    (setupVideoStep dur i vi acc).effs = acc.effs ∧
    (setupVideoStep dur i vi acc).next_pid = acc.next_pid := by
  have hne : findUnused .visual acc.streams ≠ none := by
    intro hn
    obtain ⟨st, hm, hc⟩ := hex
    exact (findUnused_eq_none_iff .visual acc.streams).1 hn st hm hc
  unfold setupVideoStep
  cases hf : findUnused .visual acc.streams with
  | none => exact absurd hf hne
  | some j =>
    dsimp only
    refine ⟨?_, rfl, rfl⟩
    apply listModify_map
    intro a
    rfl

/-- When no unused visual pin exists, one video-setup iteration allocates a
fresh pin. -/
theorem setupVideoStep_alloc (dur : Nat × Nat) (i : Nat) (vi : VStreamInfo)
    (acc : SetupAcc)
    (hnone : ∀ st ∈ acc.streams, ¬(st.stream_type = .visual ∧ st.in_use = false)) :
    (setupVideoStep dur i vi acc).streams.map (fun st => st.opid)
        = acc.streams.map (fun st => st.opid) ++ [acc.next_pid] ∧
    (setupVideoStep dur i vi acc).effs = acc.effs ++ [.newPin acc.next_pid] ∧
    (setupVideoStep dur i vi acc).next_pid = acc.next_pid + 1 := by
  unfold setupVideoStep
  rw [(findUnused_eq_none_iff .visual acc.streams).2 hnone]
  dsimp only
  exact ⟨by simp, rfl, rfl⟩

/-- Audio analogue of `setupVideoStep_reuse` (for streams whose audio type
the library recognises). -/
theorem setupAudioStep_reuse (dur : Nat × Nat) (i : Nat) (ai : AStreamInfo)
    (acc : SetupAcc) (hknown : ai.atype ≠ .unknown)
    (hex : ∃ st ∈ acc.streams, st.stream_type = .audio ∧ st.in_use = false) :
    (setupAudioStep dur i ai acc).streams.map (fun st => st.opid)
        = acc.streams.map (fun st => st.opid) ∧
    (setupAudioStep dur i ai acc).effs = acc.effs ∧
    (setupAudioStep dur i ai acc).next_pid = acc.next_pid := by
  have hne : findUnused .audio acc.streams ≠ none := by
    intro hn
    obtain ⟨st, hm, hc⟩ := hex
    exact (findUnused_eq_none_iff .audio acc.streams).1 hn st hm hc
  unfold setupAudioStep
  rw [if_neg hknown]
  cases hf : findUnused .audio acc.streams with
  | none => exact absurd hf hne
  | some j =>
    dsimp only
    refine ⟨?_, rfl, rfl⟩
    apply listModify_map
    intro a
    rfl

/-! ## Claims -/

/-- C1: a process call whose destination output pin would block does no
transformation work for that pin.  The encoder (whose single output pin is
queried first, source line 359) returns OK at once, consuming no input and
producing no output; the demuxer (source line 351) skips a blocked in-use
pin: it pulls no frame from the source for it, sends nothing on it, and —
because a blocked pin is never counted done — the input packet is not
dropped, so the unconsumed data is still present on the next call.  The
demuxer hypotheses say the source is open (pins only exist then) and an
input packet is pending. -/
theorem c1_backpressure_defers_work
    (ectx : GF_FFEncodeCtx) (eenv : EncEnv) (heb : eenv.would_block = true)
    (dctx : GF_M2PSDmxCtx) (denv : DmxEnv) (info : PSInfo) (st : M2PSStream)
    (hpck : denv.input_pck ≠ none) (hps : dctx.ps = some info)
    (hst : st ∈ dctx.streams) (huse : st.in_use = true)
    (hblk : denv.would_block st.opid = true) :
    ffenc_process eenv ectx = (.ok, ectx, []) ∧
    (∀ n, DmxEff.getVideoFrame st.opid n ∉ (m2psdmx_process denv dctx).2.2) ∧
    (∀ n, DmxEff.getAudioFrame st.opid n ∉ (m2psdmx_process denv dctx).2.2) ∧
    (∀ p, DmxEff.sendPck st.opid p ∉ (m2psdmx_process denv dctx).2.2) ∧
    DmxEff.dropInput ∉ (m2psdmx_process denv dctx).2.2 := by
  obtain ⟨p, hp⟩ := Option.ne_none_iff_exists'.mp hpck
  have hproc : m2psdmx_process denv dctx = dmxProcessPlay denv dctx [] := by
    unfold m2psdmx_process
    rw [hp, hps]
  have main : ∀ e ∈ (dmxProcessPlay denv dctx []).2.2,
      dmxEffPin e ≠ some st.opid ∧ e ≠ DmxEff.dropInput := by
    intro e he
    by_cases hpl : dctx.is_playing = true
    · rw [dmxProcessPlay_eq denv dctx [] hpl] at he
      have hlt := streamLoop_nb_lt denv dctx.first_dts dctx.streams
        (0, if dctx.in_seek then [] ++ seekEffs dctx else []) st hst huse hblk
      rw [if_neg (by omega)] at he
      obtain ⟨extra, heq, hall⟩ := streamLoop_effs denv dctx.first_dts dctx.streams
        (0, if dctx.in_seek then [] ++ seekEffs dctx else [])
      rw [heq] at he
      rcases List.mem_append.1 he with h0 | hx
      · have h0' : e ∈ seekEffs dctx := by
          revert h0
          split
          · simp
          · simp
        obtain ⟨st2, _, rfl⟩ := List.mem_map.1 h0'
        cases st2.stream_type <;> exact ⟨by simp [dmxEffPin], by simp⟩
      · obtain ⟨st2, _, _, hb2, hp2⟩ := hall e hx
        refine ⟨?_, ?_⟩
        · intro hpin
          rw [hp2] at hpin
          have : st2.opid = st.opid := by injection hpin
          rw [this] at hb2
          rw [hblk] at hb2
          exact Bool.true_eq_false.mp hb2
        · intro hdrop
          rw [hdrop] at hp2
          simp [dmxEffPin] at hp2
    · unfold dmxProcessPlay at he
      rw [if_pos (by revert hpl; cases dctx.is_playing <;> simp)] at he
      simp at he
  refine ⟨by simp [ffenc_process, heb], ?_, ?_, ?_, ?_⟩
  · intro n hn
    rw [hproc] at hn
    exact (main _ hn).1 rfl
  · intro n hn
    rw [hproc] at hn
    exact (main _ hn).1 rfl
  · intro q hq
    rw [hproc] at hq
    exact (main _ hq).1 rfl
  · intro hd
    rw [hproc] at hd
    exact (main _ hd).2 rfl

theorem c1_backpressure_defers_work_witness :
    wBlockedEEnv.would_block = true ∧
    wBlockedDEnv.input_pck ≠ none ∧ wDmxCtx.ps = some wInfo ∧
    wStream ∈ wDmxCtx.streams ∧ wStream.in_use = true ∧
    wBlockedDEnv.would_block wStream.opid = true ∧
    (ffenc_process wBlockedEEnv wEncCtx = (.ok, wEncCtx, []) ∧
     (∀ n, DmxEff.getVideoFrame wStream.opid n ∉ (m2psdmx_process wBlockedDEnv wDmxCtx).2.2) ∧
     (∀ n, DmxEff.getAudioFrame wStream.opid n ∉ (m2psdmx_process wBlockedDEnv wDmxCtx).2.2) ∧
     (∀ p, DmxEff.sendPck wStream.opid p ∉ (m2psdmx_process wBlockedDEnv wDmxCtx).2.2) ∧
     DmxEff.dropInput ∉ (m2psdmx_process wBlockedDEnv wDmxCtx).2.2) :=
  ⟨by decide, by decide, by decide, by decide, by decide, by decide,
   c1_backpressure_defers_work wEncCtx wBlockedEEnv (by decide) wDmxCtx wBlockedDEnv
     wInfo wStream (by decide) (by decide) (by decide) (by decide) (by decide)⟩

/-- C2: the claim says a `process` call with no pending input while the
input pin is not at EOS must be a no-op returning OK.  The demuxer half
holds (last conjunct), but the encoder violates it: with `flush_done`
still false the no-input early-return guard (source line 119 / 231) is
skipped, so the call submits a NULL (flush) frame to the codec engine,
sets the flush-done flag, marks the output pin EOS and returns GF_EOS.
This theorem evaluates the code at that failing input. -/
theorem c2_no_input_is_not_noop :
    c2Ctx.flush_done = false ∧ c2Env.input_pck = none ∧ c2Env.is_eos = false ∧
    c2Env.would_block = false ∧
    ffenc_process c2Env c2Ctx
      = (.eos, { c2Ctx with flush_done := true }, [.submitFlush, .setEos]) ∧
    c2DmxEnv.input_pck = none ∧
    m2psdmx_process c2DmxEnv wDmxCtx = (.ok, wDmxCtx, []) := by
  decide

/-- C4: the claim says pin reuse fully overwrites every declared video
property, including width and height.  The code (source lines 156–157)
sets GF_PROP_PID_WIDTH twice — the second time with the new stream's
height — and never sets GF_PROP_PID_HEIGHT, so a reused pin keeps a stale
height and publishes the new height as its width.  Concretely: the pooled
pin carried height 480 / width 640, the new source's video stream is
1280x720, and after setup the pin still reports height 480 while its
width property is 720; a fresh pin gets no height property at all. -/
theorem c4_stale_height_leaks :
    c4Info.vstreams.map (fun vi => (vi.width, vi.height)) = [(1280, 720)] ∧
    getProp c4OldProps .height = some (.uint 480) ∧
    getProp c4OldProps .width = some (.uint 640) ∧
    (m2psdmx_setup c4Info c4Streams0 10).streams.map
        (fun st => (st.opid, st.in_use, getProp st.props .height, getProp st.props .width))
      = [(1, true, some (.uint 480), some (.uint 720))] ∧
    getProp (applyVProps [] { vtype := .mpeg2, fps1000 := none, width := 1280, height := 720, par := 0 }
      0 1 (10000, 1000)) .height = none := by
  decide

/-- C10: once the source handle is open, a `process` call while not playing
returns OK and does nothing — no seek, no frame pulled, no packet sent, no
EOS, and the pending input packet is not dropped (empty effect trace, state
unchanged); a STOP event clears the playing flag and is passed through
(not cancelled). -/
theorem c10_not_playing_is_inert
    (dctx : GF_M2PSDmxCtx) (denv : DmxEnv) (info : PSInfo)
    (hps : dctx.ps = some info) (hpl : dctx.is_playing = false)
    (hpck : denv.input_pck ≠ none) :
    m2psdmx_process denv dctx = (.ok, dctx, []) ∧
    (∀ c : GF_M2PSDmxCtx, m2psdmx_process_event c .stop
      = (false, { c with is_playing := false })) := by
  obtain ⟨p, hp⟩ := Option.ne_none_iff_exists'.mp hpck
  constructor
  · unfold m2psdmx_process
    rw [hp, hps]
    unfold dmxProcessPlay
    rw [if_pos hpl]
  · intro c
    rfl

theorem c10_not_playing_is_inert_witness :
    w10Ctx.ps = some wInfo ∧ w10Ctx.is_playing = false ∧
    wBlockedDEnv.input_pck ≠ none ∧
    (m2psdmx_process wBlockedDEnv w10Ctx = (.ok, w10Ctx, []) ∧
     (∀ c : GF_M2PSDmxCtx, m2psdmx_process_event c .stop
       = (false, { c with is_playing := false }))) :=
  ⟨by decide, by decide, by decide,
   c10_not_playing_is_inert w10Ctx wBlockedDEnv wInfo (by decide) (by decide) (by decide)⟩

/-- Evaluation of `m2psdmx_configure_pid` when the connecting pin carries
the already-recorded file path. -/
theorem m2psdmx_configure_sameurl (env : DmxConfEnv) (ctx : GF_M2PSDmxCtx)
    (pid : Nat) (path : String)
    (h1 : env.caps_ok = true) (h2 : env.filepath = some path)
    (h3 : ctx.src_url = some path) :
    m2psdmx_configure_pid env ctx pid false
      = (.ok, { ctx with ipid := some pid }, [.setFraming]) := by
  unfold m2psdmx_configure_pid
  rw [if_neg (by simp)]
  rw [if_neg (by simp [h1])]
  rw [h2]
  dsimp only
  rw [if_pos h3]

/-- Evaluation of `m2psdmx_configure_pid` when the connecting pin carries a
different path while a source handle is open: close the handle, mark every
pooled pin unused (removing none), record the path, do not open. -/
theorem m2psdmx_configure_newurl (env : DmxConfEnv) (ctx : GF_M2PSDmxCtx)
    (pid : Nat) (path : String) (psi : PSInfo)
    (h1 : env.caps_ok = true) (h2 : env.filepath = some path)
    (h3 : ctx.src_url ≠ some path) (h4 : ctx.ps = some psi) :
    m2psdmx_configure_pid env ctx pid false
      = (.ok, { ctx with ipid := some pid, ps := none, src_url := some path,
                         streams := ctx.streams.map (fun st => { st with in_use := false }) },
         [.setFraming, .psClose]) := by
  unfold m2psdmx_configure_pid
  rw [if_neg (by simp)]
  rw [if_neg (by simp [h1])]
  rw [h2]
  dsimp only
  rw [if_neg h3]
  rw [h4]

/-- C8 (claim as stated is false in its no-retry part): after a failed lazy
open the filter records nothing, so the very next `process` call with the
input packet still pending attempts `mpeg2ps_init` again. -/
theorem c8_open_failure_is_retried :
    c8Ctx.ps = none ∧ c8Env.open_result = none ∧ c8Env.input_pck ≠ none ∧
    m2psdmx_process c8Env c8Ctx
      = (.notSupported, c8Ctx, [.psOpen "a.mpg", .setupFailure .nonCompliantBitstream]) ∧
    DmxEff.psOpen "a.mpg" ∈ (m2psdmx_process c8Env (m2psdmx_process c8Env c8Ctx).2.1).2.2 := by
  decide

/-- C8 (amended): when the lazy open fails during `process`, the filter
signals a filter-setup-failure whose kind is URL-error if the file does not
exist and non-compliant-input otherwise, returns not-supported for that
call, and leaves its state unchanged; consequently it keeps no record of
the failure, and a subsequent `process` call (if the Session schedules one)
attempts the open again — non-retry is the Session's job, not the
filter's. -/
theorem c8_lazy_open_failure
    (ctx : GF_M2PSDmxCtx) (env : DmxEnv)
    (hps : ctx.ps = none) (hpck : env.input_pck ≠ none)
    (hopen : env.open_result = none) :
    m2psdmx_process env ctx
      = (.notSupported, ctx,
         [.psOpen (ctx.src_url.getD ""),
          .setupFailure (if env.file_exists then .nonCompliantBitstream else .urlError)]) ∧
    DmxEff.psOpen (ctx.src_url.getD "")
      ∈ (m2psdmx_process env (m2psdmx_process env ctx).2.1).2.2 := by
  obtain ⟨p, hp⟩ := Option.ne_none_iff_exists'.mp hpck
  have h1 : m2psdmx_process env ctx
      = (.notSupported, ctx,
         [.psOpen (ctx.src_url.getD ""),
          .setupFailure (if env.file_exists then .nonCompliantBitstream else .urlError)]) := by
    unfold m2psdmx_process
    rw [hp, hps, hopen]
  refine ⟨h1, ?_⟩
  rw [h1]
  dsimp only
  rw [h1]
  simp

theorem c8_lazy_open_failure_witness :
    c8Ctx.ps = none ∧ c8Env.input_pck ≠ none ∧ c8Env.open_result = none ∧
    (m2psdmx_process c8Env c8Ctx
      = (.notSupported, c8Ctx,
         [.psOpen (c8Ctx.src_url.getD ""),
          .setupFailure (if c8Env.file_exists then .nonCompliantBitstream else .urlError)]) ∧
     DmxEff.psOpen (c8Ctx.src_url.getD "")
       ∈ (m2psdmx_process c8Env (m2psdmx_process c8Env c8Ctx).2.1).2.2) :=
  ⟨by decide, by decide, by decide,
   c8_lazy_open_failure c8Ctx c8Env (by decide) (by decide) (by decide)⟩

/-- C7: a configure_pid call whose FILEPATH equals the recorded source path
returns OK changing nothing (the call re-records the input pin it arrived
on, which for a reconfiguration of the existing connection is the pin
already held, as the witness instantiates); a call with a different path
while a handle is open closes the handle, marks every owned pin not-in-use
without removing any, records the new path and returns OK without opening;
the open happens only inside a later `process` call (last conjunct: any
process call with pending input and no handle emits the open). -/
theorem c7_configure_pid_lazy_reopen
    (ca : GF_M2PSDmxCtx) (ea : DmxConfEnv) (pida : Nat) (patha : String)
    (ha1 : ea.caps_ok = true) (ha2 : ea.filepath = some patha)
    (ha3 : ca.src_url = some patha) (ha4 : ca.ipid = some pida)
    (cb : GF_M2PSDmxCtx) (eb : DmxConfEnv) (pidb : Nat) (pathb : String) (psb : PSInfo)
    (hb1 : eb.caps_ok = true) (hb2 : eb.filepath = some pathb)
    (hb3 : cb.src_url ≠ some pathb) (hb4 : cb.ps = some psb)
    (cc : GF_M2PSDmxCtx) (ec : DmxEnv)
    (hc1 : cc.ps = none) (hc2 : ec.input_pck ≠ none) :
    m2psdmx_configure_pid ea ca pida false = (.ok, ca, [.setFraming]) ∧
    m2psdmx_configure_pid eb cb pidb false
      = (.ok, { cb with ipid := some pidb, ps := none, src_url := some pathb,
                        streams := cb.streams.map (fun st => { st with in_use := false }) },
         [.setFraming, .psClose]) ∧
    DmxEff.psOpen (cc.src_url.getD "") ∈ (m2psdmx_process ec cc).2.2 := by
  refine ⟨?_, m2psdmx_configure_newurl eb cb pidb pathb psb hb1 hb2 hb3 hb4, ?_⟩
  · rw [m2psdmx_configure_sameurl ea ca pida patha ha1 ha2 ha3]
    rw [← ha4]
  · obtain ⟨p, hp⟩ := Option.ne_none_iff_exists'.mp hc2
    cases ho : ec.open_result with
    | none =>
      unfold m2psdmx_process
      rw [hp, hc1, ho]
      simp
    | some info =>
      unfold m2psdmx_process
      rw [hp, hc1, ho]
      dsimp only
      obtain ⟨rest, hr⟩ := dmxProcessPlay_prefix ec
        { cc with ps := some info, first_dts := info.firstCts,
                  streams := (m2psdmx_setup info cc.streams cc.next_pid).streams,
                  next_pid := (m2psdmx_setup info cc.streams cc.next_pid).next_pid }
        ([DmxEff.psOpen (cc.src_url.getD "")] ++ (m2psdmx_setup info cc.streams cc.next_pid).effs)
      rw [hr]
      simp

theorem c7_configure_pid_lazy_reopen_witness :
    (cfA.caps_ok = true ∧ cfA.filepath = some "a.mpg" ∧
     c5CtxOpen.src_url = some "a.mpg" ∧ c5CtxOpen.ipid = some 0) ∧
    (cfB.caps_ok = true ∧ cfB.filepath = some "b.mpg" ∧
     c5CtxOpen.src_url ≠ some "b.mpg" ∧ c5CtxOpen.ps = some c5InfoOld) ∧
    (c8Ctx.ps = none ∧ c8Env.input_pck ≠ none) ∧
    (m2psdmx_configure_pid cfA c5CtxOpen 0 false = (.ok, c5CtxOpen, [.setFraming]) ∧
     m2psdmx_configure_pid cfB c5CtxOpen 0 false
       = (.ok, { c5CtxOpen with ipid := some 0, ps := none, src_url := some "b.mpg",
                                streams := c5CtxOpen.streams.map (fun st => { st with in_use := false }) },
          [.setFraming, .psClose]) ∧
     DmxEff.psOpen (c8Ctx.src_url.getD "") ∈ (m2psdmx_process c8Env c8Ctx).2.2) :=
  ⟨⟨by decide, by decide, by decide, by decide⟩,
   ⟨by decide, by decide, by decide, by decide⟩,
   ⟨by decide, by decide⟩,
   c7_configure_pid_lazy_reopen c5CtxOpen cfA 0 "a.mpg" (by decide) (by decide) (by decide)
     (by decide) c5CtxOpen cfB 0 "b.mpg" c5InfoOld (by decide) (by decide) (by decide)
     (by decide) c8Ctx c8Env (by decide) (by decide)⟩

/-- C5: when the source closes (configure with a new path), every owned
output pin is marked not-in-use and none is removed; when a new source
opens, a setup iteration for a stream reuses an existing not-in-use pin of
the same stream type (no pin created, pin identities untouched) and
allocates a fresh pin exactly when no unused pin of that type exists; in
the 2-video+1-audio → 1-video+1-audio scenario the three pins survive with
the extra video pin left not-in-use and no creation events (last
conjunct). -/
theorem c5_pins_pooled_and_reused
    (cb : GF_M2PSDmxCtx) (eb : DmxConfEnv) (pidb : Nat) (pathb : String) (psb : PSInfo)
    (hb1 : eb.caps_ok = true) (hb2 : eb.filepath = some pathb)
    (hb3 : cb.src_url ≠ some pathb) (hb4 : cb.ps = some psb)
    (dur : Nat × Nat) (i : Nat) (vi : VStreamInfo) (accv : SetupAcc)
    (hexv : ∃ st ∈ accv.streams, st.stream_type = .visual ∧ st.in_use = false)
    (ai : AStreamInfo) (j : Nat) (acca : SetupAcc) (hk : ai.atype ≠ .unknown)
    (hexa : ∃ st ∈ acca.streams, st.stream_type = .audio ∧ st.in_use = false)
    (dur2 : Nat × Nat) (i2 : Nat) (vi2 : VStreamInfo) (accn : SetupAcc)
    (hnone : ∀ st ∈ accn.streams, ¬(st.stream_type = .visual ∧ st.in_use = false)) :
    ((m2psdmx_configure_pid eb cb pidb false).2.1.streams
        = cb.streams.map (fun st => { st with in_use := false }) ∧
     (∀ o, DmxEff.removePin o ∉ (m2psdmx_configure_pid eb cb pidb false).2.2)) ∧
    ((setupVideoStep dur i vi accv).streams.map (fun st => st.opid)
        = accv.streams.map (fun st => st.opid) ∧
     (setupVideoStep dur i vi accv).effs = accv.effs) ∧
    ((setupAudioStep dur j ai acca).streams.map (fun st => st.opid)
        = acca.streams.map (fun st => st.opid) ∧
     (setupAudioStep dur j ai acca).effs = acca.effs) ∧
    ((setupVideoStep dur2 i2 vi2 accn).streams.map (fun st => st.opid)
        = accn.streams.map (fun st => st.opid) ++ [accn.next_pid] ∧
     (setupVideoStep dur2 i2 vi2 accn).effs = accn.effs ++ [.newPin accn.next_pid]) ∧
    ((m2psdmx_setup c5Info c5Streams0 10).streams.map
        (fun st => (st.opid, st.stream_type, st.in_use))
        = [(1, .visual, true), (2, .visual, false), (3, .audio, true)] ∧
     (m2psdmx_setup c5Info c5Streams0 10).effs = [] ∧
     (m2psdmx_setup c5Info c5Streams0 10).next_pid = 10) := by
  refine ⟨⟨?_, ?_⟩,
    ⟨(setupVideoStep_reuse dur i vi accv hexv).1, (setupVideoStep_reuse dur i vi accv hexv).2.1⟩,
    ⟨(setupAudioStep_reuse dur j ai acca hk hexa).1, (setupAudioStep_reuse dur j ai acca hk hexa).2.1⟩,
    ⟨(setupVideoStep_alloc dur2 i2 vi2 accn hnone).1, (setupVideoStep_alloc dur2 i2 vi2 accn hnone).2.1⟩,
    by decide⟩
  · rw [m2psdmx_configure_newurl eb cb pidb pathb psb hb1 hb2 hb3 hb4]
  · rw [m2psdmx_configure_newurl eb cb pidb pathb psb hb1 hb2 hb3 hb4]
    intro o
    simp

theorem c5_pins_pooled_and_reused_witness :
    (cfB.caps_ok = true ∧ cfB.filepath = some "b.mpg" ∧
     c5CtxOpen.src_url ≠ some "b.mpg" ∧ c5CtxOpen.ps = some c5InfoOld) ∧
    ((∃ st ∈ c5Acc.streams, st.stream_type = .visual ∧ st.in_use = false) ∧
     c5AudioB.atype ≠ .unknown ∧
     (∃ st ∈ c5Acc.streams, st.stream_type = .audio ∧ st.in_use = false) ∧
     (∀ st ∈ c5AccFull.streams, ¬(st.stream_type = .visual ∧ st.in_use = false))) ∧
    (((m2psdmx_configure_pid cfB c5CtxOpen 0 false).2.1.streams
        = c5CtxOpen.streams.map (fun st => { st with in_use := false }) ∧
      (∀ o, DmxEff.removePin o ∉ (m2psdmx_configure_pid cfB c5CtxOpen 0 false).2.2)) ∧
     ((setupVideoStep (8000, 1000) 0 c5VideoB c5Acc).streams.map (fun st => st.opid)
        = c5Acc.streams.map (fun st => st.opid) ∧
      (setupVideoStep (8000, 1000) 0 c5VideoB c5Acc).effs = c5Acc.effs) ∧
     ((setupAudioStep (8000, 1000) 0 c5AudioB c5Acc).streams.map (fun st => st.opid)
        = c5Acc.streams.map (fun st => st.opid) ∧
      (setupAudioStep (8000, 1000) 0 c5AudioB c5Acc).effs = c5Acc.effs) ∧
     ((setupVideoStep (8000, 1000) 2 c5VideoB c5AccFull).streams.map (fun st => st.opid)
        = c5AccFull.streams.map (fun st => st.opid) ++ [c5AccFull.next_pid] ∧
      (setupVideoStep (8000, 1000) 2 c5VideoB c5AccFull).effs
        = c5AccFull.effs ++ [.newPin c5AccFull.next_pid]) ∧
     ((m2psdmx_setup c5Info c5Streams0 10).streams.map
        (fun st => (st.opid, st.stream_type, st.in_use))
        = [(1, .visual, true), (2, .visual, false), (3, .audio, true)] ∧
      (m2psdmx_setup c5Info c5Streams0 10).effs = [] ∧
      (m2psdmx_setup c5Info c5Streams0 10).next_pid = 10)) :=
  ⟨⟨by decide, by decide, by decide, by decide⟩,
   ⟨by decide, by decide, by decide, by decide⟩,
   c5_pins_pooled_and_reused c5CtxOpen cfB 0 "b.mpg" c5InfoOld (by decide) (by decide)
     (by decide) (by decide) (8000, 1000) 0 c5VideoB c5Acc (by decide)
     c5AudioB 0 c5Acc (by decide) (by decide)
     (8000, 1000) 2 c5VideoB c5AccFull (by decide)⟩

/-- PLAY with unchanged start range while already playing is cancelled with
no state change (source lines 268–271). -/
theorem m2psdmx_play_idem (c : GF_M2PSDmxCtx) (r : Rat)
    (h1 : c.is_playing = true) (h2 : c.start_range = r) :
    m2psdmx_process_event c (.play r) = (true, c) := by
  unfold m2psdmx_process_event
  dsimp only
  rw [if_pos ⟨h1, h2⟩]

/-- C6: delivering the same PLAY twice in a row yields at most one seek
pass.  The second identical PLAY is cancelled (returns true) with the
state — pending-seek flag and stored range included — unchanged; the next
process call performs at most one seek per in-use stream while consuming
the pending-seek flag, so the process call after it performs no seek at
all. -/
theorem c6_play_idempotent_single_seek
    (c0 : GF_M2PSDmxCtx) (r : Rat) (env1 env2 : DmxEnv) (info : PSInfo)
    (hps : c0.ps = some info) (hpck1 : env1.input_pck ≠ none) :
    m2psdmx_process_event (m2psdmx_process_event c0 (.play r)).2 (.play r)
      = (true, (m2psdmx_process_event c0 (.play r)).2) ∧
    ((m2psdmx_process env1 (m2psdmx_process_event c0 (.play r)).2).2.2.filter
        isSeekEff).length
      ≤ (c0.streams.filter (fun st => st.in_use)).length ∧
    ((m2psdmx_process env2
        (m2psdmx_process env1 (m2psdmx_process_event c0 (.play r)).2).2.1).2.2.filter
        isSeekEff)
      = [] := by
  set c1 : GF_M2PSDmxCtx := (m2psdmx_process_event c0 (.play r)).2 with hc1def
  have hc1 : c1 = if c0.is_playing = true ∧ c0.start_range = r then c0
      else { c0 with start_range := r, is_playing := true, in_seek := true } := by
    rw [hc1def]
    unfold m2psdmx_process_event
    dsimp only
    split <;> rfl
  have hplay : c1.is_playing = true := by
    rw [hc1]; split
    · rename_i h; exact h.1
    · rfl
  have hrange : c1.start_range = r := by
    rw [hc1]; split
    · rename_i h; exact h.2
    · rfl
  have hps1 : c1.ps = some info := by
    rw [hc1]; split <;> exact hps
  have hstreams : c1.streams = c0.streams := by
    rw [hc1]; split <;> rfl
  obtain ⟨p, hp⟩ := Option.ne_none_iff_exists'.mp hpck1
  have hproc1 : m2psdmx_process env1 c1 = dmxProcessPlay env1 c1 [] := by
    unfold m2psdmx_process
    rw [hp, hps1]
  have hc2 : (m2psdmx_process env1 c1).2.1
      = if c1.in_seek then { c1 with in_seek := false } else c1 := by
    rw [hproc1, dmxProcessPlay_ctx env1 c1 [] hplay]
  have h2play : (m2psdmx_process env1 c1).2.1.is_playing = true := by
    rw [hc2]; split <;> exact hplay
  have h2ps : (m2psdmx_process env1 c1).2.1.ps = some info := by
    rw [hc2]; split <;> exact hps1
  have h2seek : (m2psdmx_process env1 c1).2.1.in_seek = false := by
    rw [hc2]; split
    · rfl
    · rename_i h
      revert h
      cases c1.in_seek <;> simp
  refine ⟨m2psdmx_play_idem c1 r hplay hrange, ?_, ?_⟩
  · rw [hproc1, dmxProcessPlay_filter_seek env1 c1 [] hplay]
    simp only [List.filter_nil, List.nil_append]
    split
    · rw [seekEffs_length, hstreams]
    · simp
  · rcases hgen : (m2psdmx_process env1 c1).2.1 with ⟨gi, gu, gp, gr, gf, gpl, gsk, gst, gn⟩
    rw [hgen] at h2play h2ps h2seek
    cases hpk2 : env2.input_pck with
    | none =>
      have hnone : m2psdmx_process env2 ⟨gi, gu, gp, gr, gf, gpl, gsk, gst, gn⟩
          = (.ok, ⟨gi, gu, gp, gr, gf, gpl, gsk, gst, gn⟩, []) := by
        unfold m2psdmx_process
        rw [hpk2]
      rw [hnone]
      rfl
    | some q =>
      have hpr : m2psdmx_process env2 ⟨gi, gu, gp, gr, gf, gpl, gsk, gst, gn⟩
          = dmxProcessPlay env2 ⟨gi, gu, gp, gr, gf, gpl, gsk, gst, gn⟩ [] := by
        unfold m2psdmx_process
        rw [hpk2]
        rw [show gp = some info from h2ps]
      rw [hpr, dmxProcessPlay_filter_seek env2 _ [] h2play]
      rw [show (⟨gi, gu, gp, gr, gf, gpl, gsk, gst, gn⟩ : GF_M2PSDmxCtx).in_seek = false
        from h2seek]
      simp

theorem c6_play_idempotent_single_seek_witness :
    w10Ctx.ps = some wInfo ∧ c6Env.input_pck ≠ none ∧
    (m2psdmx_process_event (m2psdmx_process_event w10Ctx (.play 2)).2 (.play 2)
       = (true, (m2psdmx_process_event w10Ctx (.play 2)).2) ∧
     ((m2psdmx_process c6Env (m2psdmx_process_event w10Ctx (.play 2)).2).2.2.filter
         isSeekEff).length
       ≤ (w10Ctx.streams.filter (fun st => st.in_use)).length ∧
     ((m2psdmx_process c6Env
         (m2psdmx_process c6Env (m2psdmx_process_event w10Ctx (.play 2)).2).2.1).2.2.filter
         isSeekEff)
       = []) :=
  ⟨by decide, by decide,
   c6_play_idempotent_single_seek w10Ctx 2 c6Env c6Env wInfo (by decide) (by decide)⟩

/-- C9: a failed encode call is transient.  Video: the call logs the error,
has already dropped the offending input packet, returns a service error,
emits nothing, marks nothing EOS and leaves the state untouched except the
scratch frame timestamp.  Audio: same observable outcome (error logged,
offending packet dropped, no EOS, nothing emitted, flush state untouched).
A following call with the next packet and a succeeding encoder proceeds
normally and emits its coded unit (last conjunct). -/
theorem c9_encode_error_is_transient
    (cv : GF_FFEncodeCtx) (ev : EncEnv) (pckv : EncInPck) (datv : List Nat)
    (hv1 : ev.would_block = false) (hv2 : cv.ctype = .visual)
    (hv3 : ev.input_pck = some pckv) (hv4 : pckv.data = some datv)
    (hv5 : ev.encode_res < 0)
    (ca : GF_FFEncodeCtx) (ea : EncEnv) (pcka : EncInPck) (data : List Nat)
    (ha1 : ea.would_block = false) (ha2 : ca.ctype = .audio)
    (ha3 : ea.input_pck = some pcka) (ha4 : pcka.data = some data)
    (ha5 : ¬(ca.frame_size ≠ 0 ∧
        data.length + ca.audio_buffer.length < ca.bytes_per_sample * ca.frame_size))
    (ha6 : ¬ ea.fill_res < 0) (ha7 : ea.encode_res < 0)
    (cn : GF_FFEncodeCtx) (en : EncEnv) (pckn : EncInPck) (datn : List Nat) (outn : OutCoded)
    (hn1 : en.would_block = false) (hn2 : cn.ctype = .visual)
    (hn3 : en.input_pck = some pckn) (hn4 : pckn.data = some datn)
    (hn5 : ¬ en.encode_res < 0) (hn6 : en.encode_out = some outn) :
    ffenc_process ev cv = (.serviceError, { cv with frame_pts := (pckv.cts : Int) },
       [.submitFrame (pckv.cts : Int), .dropInput, .logError]) ∧
    ((ffenc_process ea ca).1 = .serviceError ∧
     EncEff.dropInput ∈ (ffenc_process ea ca).2.2 ∧
     EncEff.logError ∈ (ffenc_process ea ca).2.2 ∧
     EncEff.setEos ∉ (ffenc_process ea ca).2.2 ∧
     (∀ q, EncEff.sendPck q ∉ (ffenc_process ea ca).2.2) ∧
     (ffenc_process ea ca).2.1.flush_done = ca.flush_done) ∧
    ffenc_process en cn = (.ok, { cn with frame_pts := (pckn.cts : Int) },
       [.submitFrame (pckn.cts : Int), .dropInput,
        .sendPck { size := outn.size, cts := outn.pts, dts := outn.dts,
                   sap1 := outn.key, duration := outn.duration }]) := by
  have hvideo : ffenc_process ev cv
      = (.serviceError, { cv with frame_pts := (pckv.cts : Int) },
         [.submitFrame (pckv.cts : Int), .dropInput, .logError]) := by
    unfold ffenc_process
    rw [if_neg (by simp [hv1])]
    simp only [hv2]
    unfold ffenc_process_video
    rw [hv3]
    dsimp only
    rw [hv4]
    dsimp only
    rw [if_pos hv5]
    simp [hv2]
  have haudio : ∃ pts c2, ffenc_process ea ca
      = (.serviceError, c2, [.submitFrame pts, .dropInput, .logError]) ∧
      c2.flush_done = ca.flush_done := by
    unfold ffenc_process
    rw [if_neg (by simp [ha1])]
    simp only [ha2]
    unfold ffenc_process_audio
    rw [ha3]
    dsimp only
    rw [ha4]
    dsimp only
    by_cases hb : ca.audio_buffer.length = 0
    · rw [if_pos hb]
      rw [if_neg ha5, if_neg ha6, if_pos ha7]
      refine ⟨_, _, rfl, ?_⟩
      repeat' split
      all_goals rfl
    · rw [if_neg hb]
      rw [if_neg ha5, if_neg ha6, if_pos ha7]
      refine ⟨_, _, rfl, ?_⟩
      repeat' split
      all_goals rfl
  have hnext : ffenc_process en cn
      = (.ok, { cn with frame_pts := (pckn.cts : Int) },
         [.submitFrame (pckn.cts : Int), .dropInput,
          .sendPck { size := outn.size, cts := outn.pts, dts := outn.dts,
                     sap1 := outn.key, duration := outn.duration }]) := by
    unfold ffenc_process
    rw [if_neg (by simp [hn1])]
    simp only [hn2]
    unfold ffenc_process_video
    rw [hn3]
    dsimp only
    rw [hn4]
    dsimp only
    rw [if_neg hn5, hn6]
    simp [hn2]
  obtain ⟨pts, c2, hev, hfd⟩ := haudio
  refine ⟨hvideo, ⟨?_, ?_, ?_, ?_, ?_, ?_⟩, hnext⟩ <;> rw [hev]
  · simp
  · simp
  · simp
  · intro q
    simp
  · exact hfd

theorem c9_encode_error_is_transient_witness :
    c9EnvVideoErr.encode_res < 0 ∧ c9EnvAudioErr.encode_res < 0 ∧
    ¬ c9EnvVideoOk.encode_res < 0 ∧
    (ffenc_process c9EnvVideoErr wEncCtx
       = (.serviceError, { wEncCtx with frame_pts := ((3003 : Nat) : Int) },
          [.submitFrame ((3003 : Nat) : Int), .dropInput, .logError]) ∧
     (ffenc_process c9EnvAudioErr c3Ctx).1 = .serviceError ∧
     EncEff.setEos ∉ (ffenc_process c9EnvAudioErr c3Ctx).2.2 ∧
     ffenc_process c9EnvVideoOk wEncCtx
       = (.ok, { wEncCtx with frame_pts := ((6006 : Nat) : Int) },
          [.submitFrame ((6006 : Nat) : Int), .dropInput,
           .sendPck { size := 2, cts := 3003, dts := 0, sap1 := true, duration := 3003 }])) := by
  have h := c9_encode_error_is_transient wEncCtx c9EnvVideoErr
    { cts := 3003, data := some [1, 2, 3], hw_fetch := none, interlaced := 0 } [1, 2, 3]
    (by decide) (by decide) (by decide) (by decide) (by decide)
    c3Ctx c9EnvAudioErr
    { cts := 1024, data := some [0, 0, 0, 0], hw_fetch := none, interlaced := 0 } [0, 0, 0, 0]
    (by decide) (by decide) (by decide) (by decide) (by decide) (by decide) (by decide)
    wEncCtx c9EnvVideoOk
    { cts := 6006, data := some [4, 5, 6], hw_fetch := none, interlaced := 0 } [4, 5, 6]
    { size := 2, pts := 3003, dts := 0, key := true, duration := 3003 }
    (by decide) (by decide) (by decide) (by decide) (by decide) (by decide)
  exact ⟨by decide, by decide, by decide, h.1, h.2.1.1, h.2.1.2.2.2.1, h.2.2⟩

/-- The one-shot capture path of the audio emission epilogue: flag set and
the codec-reported pts differs from the submitted frame pts. -/
theorem ffenc_audio_emit_init (c : GF_FFEncodeCtx) (out : OutCoded)
    (effs : List EncEff) (h : c.init_cts_setup = true)
    (hne : c.frame_pts ≠ out.pts) :
    ffenc_audio_emit c out effs
      = (.ok, { c with init_cts_setup := false, ts_shift := c.frame_pts - out.pts },
         effs ++ [.setAudioSkip (u32cast (Int.tdiv ((c.frame_pts - out.pts)
                    * (c.sample_rate : Int)) (c.timescale : Int)))]
              ++ [.sendPck { size := out.size, cts := out.pts + (c.frame_pts - out.pts),
                             dts := out.dts + (c.frame_pts - out.pts), sap1 := out.key,
                             duration := out.duration }]) := by
  unfold ffenc_audio_emit
  rw [if_pos h]
  dsimp only
  rw [if_pos hne]
  dsimp only
  rw [if_pos (sub_ne_zero_of_ne hne)]

/-- C3: on the first emitted coded unit (capture flag set) with a reported
pts differing from the submitted frame pts, the audio encoder captures
ts_shift = frame_pts − pkt_pts, clears the flag, publishes the audio-skip
property scaled by sample_rate/timescale, and emits the packet with
cts/dts shifted by ts_shift; on every later call the flag stays cleared and
ts_shift is never recomputed, and every emitted packet — both the
packet-driven path and the drain path — carries cts/dts shifted by the
captured ts_shift, with no further audio-skip publication.  The witness
instantiates the frame_pts=1024 / pkt_pts=960 / timescale=sample_rate
scenario, giving shift 64 and published skip 64. -/
theorem c3_ts_shift_once
    (c : GF_FFEncodeCtx) (e : EncEnv) (pck : EncInPck) (dat : List Nat) (out : OutCoded)
    (h1 : e.would_block = false) (h2 : c.ctype = .audio)
    (h3 : e.input_pck = some pck) (h4 : pck.data = some dat)
    (h5 : ¬(c.frame_size ≠ 0 ∧
        dat.length + c.audio_buffer.length < c.bytes_per_sample * c.frame_size))
    (h6 : ¬ e.fill_res < 0) (h7 : ¬ e.encode_res < 0) (h8 : e.encode_out = some out)
    (h9 : c.init_cts_setup = true)
    (h10 : (if c.audio_buffer.length = 0 then (pck.cts : Int) else (c.first_byte_cts : Int))
            ≠ out.pts)
    (c' : GF_FFEncodeCtx) (e' : EncEnv) (pck' : EncInPck) (dat' : List Nat) (out' : OutCoded)
    (g1 : e'.would_block = false) (g2 : c'.ctype = .audio)
    (g3 : e'.input_pck = some pck') (g4 : pck'.data = some dat')
    (g5 : ¬(c'.frame_size ≠ 0 ∧
        dat'.length + c'.audio_buffer.length < c'.bytes_per_sample * c'.frame_size))
    (g6 : ¬ e'.fill_res < 0) (g7 : ¬ e'.encode_res < 0) (g8 : e'.encode_out = some out')
    (g9 : c'.init_cts_setup = false)
    (cf : GF_FFEncodeCtx) (ef : EncEnv) (outf : OutCoded)
    (f1 : ef.would_block = false) (f2 : cf.ctype = .audio)
    (f3 : ef.input_pck = none) (f4 : cf.flush_done = false)
    (f5 : ef.flush_out = some outf) (f6 : ¬ ef.flush_res < 0)
    (f7 : cf.init_cts_setup = false) :
    ((ffenc_process e c).2.1.init_cts_setup = false ∧
     (ffenc_process e c).2.1.ts_shift
       = (if c.audio_buffer.length = 0 then (pck.cts : Int) else (c.first_byte_cts : Int))
           - out.pts ∧
     EncEff.setAudioSkip (u32cast (Int.tdiv
         (((if c.audio_buffer.length = 0 then (pck.cts : Int) else (c.first_byte_cts : Int))
             - out.pts) * (c.sample_rate : Int)) (c.timescale : Int)))
       ∈ (ffenc_process e c).2.2 ∧
     EncEff.sendPck
       { size := out.size,
         cts := out.pts + ((if c.audio_buffer.length = 0 then (pck.cts : Int)
                            else (c.first_byte_cts : Int)) - out.pts),
         dts := out.dts + ((if c.audio_buffer.length = 0 then (pck.cts : Int)
                            else (c.first_byte_cts : Int)) - out.pts),
         sap1 := out.key, duration := out.duration }
       ∈ (ffenc_process e c).2.2) ∧
    ((ffenc_process e' c').2.1.ts_shift = c'.ts_shift ∧
     (ffenc_process e' c').2.1.init_cts_setup = false ∧
     EncEff.sendPck
       { size := out'.size, cts := out'.pts + c'.ts_shift, dts := out'.dts + c'.ts_shift,
         sap1 := out'.key, duration := out'.duration }
       ∈ (ffenc_process e' c').2.2 ∧
     (∀ v, EncEff.setAudioSkip v ∉ (ffenc_process e' c').2.2)) ∧
    (EncEff.sendPck
       { size := outf.size, cts := outf.pts + cf.ts_shift, dts := outf.dts + cf.ts_shift,
         sap1 := outf.key, duration := outf.duration }
       ∈ (ffenc_process ef cf).2.2 ∧
     (ffenc_process ef cf).2.1.ts_shift = cf.ts_shift) := by
  refine ⟨?_, ?_, ?_⟩
  · -- first coded unit: capture the shift, publish the skip, emit shifted
    have hevalA : ∃ pts c2, ffenc_process e c
        = ffenc_audio_emit c2 out [.submitFrame pts, .dropInput]
        ∧ c2.init_cts_setup = true
        ∧ c2.frame_pts = (if c.audio_buffer.length = 0 then (pck.cts : Int)
                          else (c.first_byte_cts : Int))
        ∧ c2.sample_rate = c.sample_rate ∧ c2.timescale = c.timescale := by
      unfold ffenc_process
      rw [if_neg (by simp [h1])]
      simp only [h2]
      unfold ffenc_process_audio
      rw [h3]
      dsimp only
      rw [h4]
      dsimp only
      by_cases hb : c.audio_buffer.length = 0
      · rw [if_pos hb]
        rw [if_neg h5, if_neg h6, if_neg h7, h8]
        refine ⟨_, _, rfl, ?_, ?_, ?_, ?_⟩ <;>
          (repeat' split) <;>
          first | exact h9 | rfl
      · rw [if_neg hb]
        rw [if_neg h5, if_neg h6, if_neg h7, h8]
        refine ⟨_, _, rfl, ?_, ?_, ?_, ?_⟩ <;>
          (repeat' split) <;>
          first | exact h9 | rfl
    obtain ⟨pts, c2, hev, hi, hf, hsr, hts⟩ := hevalA
    rw [hev, ffenc_audio_emit_init c2 out _ hi (by rw [hf]; exact h10)]
    refine ⟨rfl, ?_, ?_, ?_⟩
    · show c2.frame_pts - out.pts = _
      rw [hf]
    · simp [hf, hsr, hts]
    · simp [hf]
  · -- later packets: flag stays cleared, shift reused, no new skip
    have hevalB : ∃ pts c2, ffenc_process e' c'
        = ffenc_audio_emit c2 out' [.submitFrame pts, .dropInput]
        ∧ c2.init_cts_setup = false ∧ c2.ts_shift = c'.ts_shift := by
      unfold ffenc_process
      rw [if_neg (by simp [g1])]
      simp only [g2]
      unfold ffenc_process_audio
      rw [g3]
      dsimp only
      rw [g4]
      dsimp only
      by_cases hb : c'.audio_buffer.length = 0
      · rw [if_pos hb]
        rw [if_neg g5, if_neg g6, if_neg g7, g8]
        refine ⟨_, _, rfl, ?_, ?_⟩ <;>
          (repeat' split) <;>
          first | exact g9 | rfl
      · rw [if_neg hb]
        rw [if_neg g5, if_neg g6, if_neg g7, g8]
        refine ⟨_, _, rfl, ?_, ?_⟩ <;>
          (repeat' split) <;>
          first | exact g9 | rfl
    obtain ⟨pts, c2, hev, hi, hsh⟩ := hevalB
    refine ⟨(ffenc_preserves_shift e' c' g9).1, (ffenc_preserves_shift e' c' g9).2, ?_, ?_⟩
    · rw [hev, ffenc_audio_emit_noinit c2 out' _ hi]
      simp [hsh]
    · intro v
      rw [hev, ffenc_audio_emit_noinit c2 out' _ hi]
      simp
  · -- drain path: shift applied
    have heval : ffenc_process ef cf
        = ffenc_audio_emit cf outf [.submitFlush] := by
      unfold ffenc_process
      rw [if_neg (by simp [f1])]
      simp only [f2]
      unfold ffenc_process_audio
      rw [f3]
      dsimp only
      rw [if_neg (by simp [f4])]
      rw [f5]
      dsimp only
      rw [if_neg f6]
    rw [heval, ffenc_audio_emit_noinit cf outf _ f7]
    exact ⟨by simp, rfl⟩

theorem c3_ts_shift_once_witness :
    c3Ctx.init_cts_setup = true ∧ c3Ctx.sample_rate = c3Ctx.timescale ∧
    c3CtxB.init_cts_setup = false ∧
    ((ffenc_process c3Env c3Ctx).2.1.init_cts_setup = false ∧
     (ffenc_process c3Env c3Ctx).2.1.ts_shift = 64 ∧
     EncEff.setAudioSkip 64 ∈ (ffenc_process c3Env c3Ctx).2.2 ∧
     EncEff.sendPck { size := 10, cts := 1024, dts := 1024, sap1 := true, duration := 1024 }
       ∈ (ffenc_process c3Env c3Ctx).2.2 ∧
     (ffenc_process c3EnvB c3CtxB).2.1.ts_shift = 64 ∧
     EncEff.sendPck { size := 10, cts := 2048, dts := 2048, sap1 := true, duration := 1024 }
       ∈ (ffenc_process c3EnvB c3CtxB).2.2 ∧
     (∀ v, EncEff.setAudioSkip v ∉ (ffenc_process c3EnvB c3CtxB).2.2) ∧
     EncEff.sendPck { size := 5, cts := 2112, dts := 2112, sap1 := true, duration := 512 }
       ∈ (ffenc_process c3EnvFlush c3CtxB).2.2) := by
  have h := c3_ts_shift_once c3Ctx c3Env
    { cts := 1024, data := some [0, 0, 0, 0], hw_fetch := none, interlaced := 0 } [0, 0, 0, 0]
    { size := 10, pts := 960, dts := 960, key := true, duration := 1024 }
    (by decide) (by decide) (by decide) (by decide) (by decide) (by decide) (by decide)
    (by decide) (by decide) (by decide)
    c3CtxB c3EnvB
    { cts := 2048, data := some [0, 0, 0, 0], hw_fetch := none, interlaced := 0 } [0, 0, 0, 0]
    { size := 10, pts := 1984, dts := 1984, key := true, duration := 1024 }
    (by decide) (by decide) (by decide) (by decide) (by decide) (by decide) (by decide)
    (by decide) (by decide)
    c3CtxB c3EnvFlush
    { size := 5, pts := 2048, dts := 2048, key := true, duration := 512 }
    (by decide) (by decide) (by decide) (by decide) (by decide) (by decide) (by decide)
  exact ⟨by decide, by decide, by decide,
    h.1.1, h.1.2.1, h.1.2.2.1, h.1.2.2.2,
    h.2.1.1, h.2.1.2.2.1, h.2.1.2.2.2, h.2.2.1⟩
